import Mathlib

/-!
Formal model of the Address-Validator service (Philippine address validation).

This file gives a shallow embedding, in Lean 4, of the core resolution and
confidence-scoring engine of the repository:

* string normalization and the fuzzy matcher of
  `utils/psgc_api_client.py` (`_normalize_for_matching`, `_normalize_name`,
  `_levenshtein_distance`, `_fuzzy_match`);
* the reference-source search operations (`search_province`,
  `search_city_municipality`, `search_barangay`) of the same file;
* the geographic-hierarchy check of `utils/llm_agent_validator.py`
  (`verify_geographic_hierarchy` tool);
* the delivery-history signal, confidence scorer and validity predicate of
  `utils/validator.py` (`_check_delivery_history`, `_calculate_verdict`) and
  `utils/validator_agent.py` (`_calculate_verdict`, `_build_response`);
* the LangGraph orchestration of `utils/validator_agent.py` (`_build_graph`
  and the routing functions), modelled as a step relation on an abstract
  per-request state;
* the sequential pipeline of `utils/validator.py` (`validate_address`).

External collaborators (the Google Maps client, the PSGC HTTP API, the
PhilAtlas scraper, the Supabase database, the LLM parser, the stdlib
`difflib.SequenceMatcher` ratio and the RapidFuzz scorers) are modelled as
explicit oracle inputs: their *result shapes* are taken from the collaborator
wrappers in the repository (`core/gmaps_integration.py`,
`core/database_client.py`), while their result *values* are universally
quantified.  Machine floats in the source only ever hold exact small decimals
and are compared for (in)equality, so scores and coordinates are modelled as
rationals.  Python functions that can raise are modelled with `Except`.
-/

set_option maxHeartbeats 1000000

namespace AddressValidator

/-! ## Python string primitives

Helpers mirroring the Python string operations used by the source
(`str.lower`, `str.strip`, `str.replace`, `str.split`, `str.title`,
`re.sub` whitespace collapsing, substring tests).  Python's `str.strip`
and `\s` treat the six ASCII whitespace characters; `\w` is modelled at
ASCII scope (letters, digits, underscore), which covers every string the
normalizers produce after accent replacement. -/

/-- The characters Python `str.strip` and the regex class `\s` treat as
whitespace (ASCII scope). -/
def isPySpace (c : Char) : Bool :=
  c = ' ' || c = '\t' || c = '\n' || c = '\r' || c = '\x0B' || c = '\x0C'

/-- ASCII model of the regex class `\w`: letters, digits and underscore. -/
def isPyWordChar (c : Char) : Bool :=
  c.isAlphanum || c = '_'

/-- Python `str.lower` at ASCII scope, applied characterwise. -/
def pyLower (s : List Char) : List Char :=
  s.map Char.toLower

/-- Python `str.strip`: drop leading and trailing whitespace. -/
def pyStrip (s : List Char) : List Char :=
  ((s.dropWhile isPySpace).reverse.dropWhile isPySpace).reverse

/-- Python `str.replace pat rep`: replace every non-overlapping occurrence of
`pat` left to right, scanning forward after each replacement (the scan does
not revisit replaced text).  Structural recursion on a fuel bounded by the
input length, so the definition reduces in the kernel. -/
def pyReplaceAux (pat rep : List Char) : Nat → List Char → List Char
  | _, [] => []
  | 0, s => s
  | fuel + 1, c :: rest =>
    if pat ≠ [] ∧ pat <+: (c :: rest) then
      rep ++ pyReplaceAux pat rep fuel ((c :: rest).drop pat.length)
    else
      c :: pyReplaceAux pat rep fuel rest

def pyReplace (pat rep : List Char) (s : List Char) : List Char :=
  pyReplaceAux pat rep s.length s

/-- `re.sub(r"\s+", " ", s)`: collapse every maximal whitespace run into a
single space.  The boolean argument records whether the previous character
was part of a whitespace run. -/
def collapseWsAux : Bool → List Char → List Char
  | _, [] => []
  | prevWs, c :: rest =>
    if isPySpace c then
      if prevWs then collapseWsAux true rest
      else ' ' :: collapseWsAux true rest
    else c :: collapseWsAux false rest

def collapseWs (s : List Char) : List Char :=
  collapseWsAux false s

/-- Python `str.split()` with no separator: split on whitespace runs,
producing no empty words. -/
def pySplitWsAux (cur : List Char) (acc : List (List Char)) :
    List Char → List (List Char)
  | [] => if cur = [] then acc.reverse else (cur.reverse :: acc).reverse
  | c :: rest =>
    if isPySpace c then
      if cur = [] then pySplitWsAux [] acc rest
      else pySplitWsAux [] (cur.reverse :: acc) rest
    else pySplitWsAux (c :: cur) acc rest

def pySplitWs (s : List Char) : List (List Char) :=
  pySplitWsAux [] [] s

/-- Python `str.title` at ASCII scope: uppercase the first character of every
alphabetic run, lowercase the rest. -/
def pyTitleAux : Bool → List Char → List Char
  | _, [] => []
  | prevAlpha, c :: rest =>
    (if c.isAlpha then (if prevAlpha then c.toLower else c.toUpper) else c)
      :: pyTitleAux c.isAlpha rest

def pyTitle (s : String) : String :=
  ⟨pyTitleAux false s.data⟩

/-- Python `pat in s` on strings: substring containment. -/
def pyContains (s pat : String) : Bool :=
  decide (pat.data <:+: s.data)

/-- Python `s.startswith pat` on strings. -/
def pyStartsWith (s pat : String) : Bool :=
  decide (pat.data <+: s.data)

/-! ## `PSGCAPIClient._normalize_for_matching` (utils/psgc_api_client.py)

Lowercase and strip, apply the ordered accent / double-letter replacement
table, remove every character outside `\w`, `\s` and the hyphen, collapse
whitespace and strip. -/

/-- The replacement table of `_normalize_for_matching`, in Python dict
insertion order. -/
def matchingReplacements : List (List Char × List Char) :=
  [(['ñ'], ['n']),
   (['á'], ['a']), (['à'], ['a']), (['â'], ['a']), (['ä'], ['a']),
   (['é'], ['e']), (['è'], ['e']), (['ê'], ['e']), (['ë'], ['e']),
   (['í'], ['i']), (['ì'], ['i']), (['î'], ['i']), (['ï'], ['i']),
   (['ó'], ['o']), (['ò'], ['o']), (['ô'], ['o']), (['ö'], ['o']),
   (['ú'], ['u']), (['ù'], ['u']), (['û'], ['u']), (['ü'], ['u']),
   (['a', 'a'], ['a']),
   (['e', 'e'], ['e']),
   (['i', 'i'], ['i']),
   (['o', 'o'], ['o']),
   (['u', 'u'], ['u'])]

def normalize_for_matching (text : List Char) : List Char :=
  if text = [] then []
  else
    let normalized := pyStrip (pyLower text)
    let normalized := matchingReplacements.foldl
      (fun s p => pyReplace p.1 p.2 s) normalized
    let normalized := normalized.filter
      (fun c => isPyWordChar c || isPySpace c || c = '-')
    pyStrip (collapseWs normalized)

/-! ## `PSGCAPIClient._normalize_name` (utils/psgc_api_client.py)

Lowercase, strip, and drop the first matching administrative prefix. -/

def namePrefixes : List (List Char) :=
  [("city of ".data), ("municipality of ".data), ("barangay ".data),
   ("brgy. ".data), ("brgy ".data), ("the ".data)]

def stripFirstPrefix : List (List Char) → List Char → List Char
  | [], s => s
  | p :: ps, s =>
    if decide (p <+: s) then s.drop p.length else stripFirstPrefix ps s

def normalize_name (name : String) : List Char :=
  if name.data = [] then []
  else stripFirstPrefix namePrefixes (pyStrip (pyLower name.data))

/-! ## `PSGCAPIClient._levenshtein_distance` (utils/psgc_api_client.py)

The row-by-row dynamic program exactly as written: swap so the first string
is the longer one, return `len s1` when `s2` is empty, else fold rows. -/

/-- One inner iteration: extend the current row by the minimum of insertion,
deletion and substitution costs. -/
def levInner (prev : List Nat) (c1 : Char) (acc : Nat × List Nat) (c2 : Char) :
    Nat × List Nat :=
  let j := acc.1
  let cur := acc.2
  let insertions := prev.getD (j + 1) 0 + 1
  let deletions := (cur.getLast?).getD 0 + 1
  let substitutions := prev.getD j 0 + (if c1 ≠ c2 then 1 else 0)
  (j + 1, cur ++ [min insertions (min deletions substitutions)])

/-- The row fold of the dynamic program; the accumulator carries the row
index and the previous row. -/
def levRows (s2 : List Char) (acc : Nat × List Nat) (c1 : Char) :
    Nat × List Nat :=
  let i := acc.1
  let prev := acc.2
  (i + 1, (s2.foldl (levInner prev c1) (0, [i + 1])).2)

def levenshteinCore (s1 s2 : List Char) : Nat :=
  if s2.length = 0 then s1.length
  else
    let first : List Nat := List.range (s2.length + 1)
    (((s1.foldl (levRows s2) (0, first)).2).getLast?).getD 0

def levenshtein_distance (s1 s2 : List Char) : Nat :=
  if s1.length < s2.length then levenshteinCore s2 s1
  else levenshteinCore s1 s2

/-! ## `PSGCAPIClient._fuzzy_match` (utils/psgc_api_client.py)

The similarity score: maximum of the `difflib.SequenceMatcher` ratio, the
substring boost 0.85, and the Levenshtein ratio.  `SequenceMatcher.ratio`
is Python stdlib, external to the repository, so it is passed in as an
oracle `sm` on the normalized strings.  The `threshold` parameter of the
source is never read in the body and is omitted. -/

def fuzzy_match (sm : List Char → List Char → ℚ) (query target : List Char) :
    ℚ :=
  let query_normalized := normalize_for_matching query
  let target_normalized := normalize_for_matching target
  let score := sm query_normalized target_normalized
  let score :=
    if query_normalized <:+: target_normalized ∨
        target_normalized <:+: query_normalized then
      max score (85 / 100)
    else score
  let lev := levenshtein_distance query_normalized target_normalized
  let maxLen := max query_normalized.length target_normalized.length
  if 0 < maxLen then
    max score (1 - (lev : ℚ) / (maxLen : ℚ))
  else score

/-- C7: the fuzzy similarity score of a string with itself is exactly 1
after normalization (given that the external `SequenceMatcher` ratio oracle
is reflexive at 1, its documented behaviour on identical inputs), and
whenever one normalized string is a substring of the other the score is at
least the substring boost 0.85, for any ratio oracle. -/
theorem fuzzy_match_reflexive_and_substring_floor :
    (∀ (sm : List Char → List Char → ℚ) (x : String),
        (∀ s, sm s s = 1) → fuzzy_match sm x.data x.data = 1) ∧
    (∀ (sm : List Char → List Char → ℚ) (q t : String),
        (normalize_for_matching q.data <:+: normalize_for_matching t.data ∨
         normalize_for_matching t.data <:+: normalize_for_matching q.data) →
        85 / 100 ≤ fuzzy_match sm q.data t.data) := by
  constructor
  · intro sm x hsm
    unfold fuzzy_match
    set n := normalize_for_matching x.data with hn
    simp only [hsm, List.infix_refl, true_or, if_true]
    have hboost : max (1 : ℚ) (85 / 100) = 1 := by
      rw [max_eq_left]; norm_num
    rw [hboost]
    split
    · rw [max_eq_left]
      have h0 : (0 : ℚ) ≤ (levenshtein_distance n n : ℚ) /
          ((max n.length n.length : ℕ) : ℚ) := by positivity
      linarith
    · rfl
  · intro sm q t hsub
    unfold fuzzy_match
    simp only [hsub, if_true]
    split
    · exact le_trans (le_max_right _ _) (le_max_left _ _)
    · exact le_max_right _ _

/-- Closed witness for C7 at concrete inputs. -/
theorem fuzzy_match_reflexive_and_substring_floor_witness :
    fuzzy_match (fun _ _ => 1) "abc".data "abc".data = 1 ∧
    85 / 100 ≤ fuzzy_match (fun _ _ => 1) "ab".data "abc".data :=
  ⟨fuzzy_match_reflexive_and_substring_floor.1 _ "abc" (fun _ => rfl),
   fuzzy_match_reflexive_and_substring_floor.2 _ "ab" "abc" (by decide)⟩

/-! ## Reference-source records and fetches (utils/psgc_api_client.py)

A PSGC record carries a code, a name, and (for cities/municipalities) an
optional zip code.  The cached list fetches `get_all_provinces` /
`get_all_cities` wrap the HTTP call in try/except and return the empty list
on any transport failure, so they take the transport outcome as an `Except`
oracle. -/

structure Location where
  code : String
  name : String
  zip_code : Option String
deriving DecidableEq

def get_all_provinces (fetch : Except String (List Location)) : List Location :=
  match fetch with
  | .ok data => data
  | .error _ => []

def get_all_cities (fetch : Except String (List Location)) : List Location :=
  match fetch with
  | .ok data => data
  | .error _ => []

/-- The best-scoring fuzzy candidate above a threshold: fold keeping the
strictly best score, ties resolved in favour of the earlier candidate.
Mirrors the `best_match`/`best_score` loops of the search functions. -/
def fuzzyBest (sm : List Char → List Char → ℚ) (threshold : ℚ)
    (query : List Char) (candidates : List Location) : Option Location :=
  (candidates.foldl
    (fun acc loc =>
      let score := fuzzy_match sm query loc.name.data
      if acc.2 < score ∧ threshold ≤ score then (some loc, score) else acc)
    ((none : Option Location), (0 : ℚ))).1

/-! ## `PSGCAPIClient.search_province` -/

def search_province (sm : List Char → List Char → ℚ)
    (fetch : Except String (List Location)) (name : String) :
    Option Location :=
  if name = "" then none
  else
    let normalized_query := normalize_name name
    let provinces := get_all_provinces fetch
    match provinces.find? (fun p => normalize_name p.name == normalized_query) with
    | some p => some p
    | none => fuzzyBest sm (7 / 10) normalized_query provinces

/-! ## `PSGCAPIClient._get_city_name_variations`

Name-variation generation.  Python builds the list then deduplicates it with
`list(set(...))`; every consumer only tests membership, so the (hash-ordered)
set order is irrelevant and `List.dedup` is used. -/

def get_city_name_variations (name : String) : List (List Char) :=
  let variations := [pyStrip (pyLower name.data)]
  let base_name := normalize_name name
  let variations := variations ++ [base_name]
  let variations :=
    if decide (" city".data <:+: base_name) then
      let clean_name := pyStrip (pyReplace " city".data [] base_name)
      variations ++ [clean_name, "city of ".data ++ clean_name]
    else if ¬ decide ("city of".data <+: base_name) then
      variations ++ ["city of ".data ++ base_name, base_name ++ " city".data]
    else variations
  let variations :=
    if decide (" municipality".data <:+: base_name) then
      let clean_name := pyStrip (pyReplace " municipality".data [] base_name)
      variations ++ [clean_name, "municipality of ".data ++ clean_name]
    else variations
  variations.dedup

/-! ## `PSGCAPIClient.search_city_municipality`

Stages exactly as the early returns of the source: with a province code,
exact variation match, then substring match, then fuzzy match over the
province-filtered list; on failure the same exact / guarded-substring /
fuzzy stages run nationwide. -/

def cityExactStage (vars : List (List Char)) (locs : List Location) :
    Option Location :=
  locs.find? (fun loc => vars.any (fun v => normalize_name loc.name == v))

def cityScopedSubstringStage (nq : List Char) (locs : List Location) :
    Option Location :=
  locs.find? (fun loc =>
    let nl := normalize_name loc.name
    decide (nq <:+: nl) || decide (nl <:+: nq))

/-- The nationwide substring stage guards against short queries: the query
must be at least 5 characters, and a location name contained in the query
must exceed half the query's length. -/
def cityNationwideSubstringStage (nq : List Char) (locs : List Location) :
    Option Location :=
  locs.find? (fun loc =>
    let nl := normalize_name loc.name
    if 5 ≤ nq.length then
      decide (nq <:+: nl) ||
        (decide (nl <:+: nq) && decide (nq.length < 2 * nl.length))
    else false)

def scopedCitySearch (sm : List Char → List Char → ℚ)
    (vars : List (List Char)) (nq : List Char) (filtered : List Location) :
    Option Location :=
  match cityExactStage vars filtered with
  | some loc => some loc
  | none =>
    match cityScopedSubstringStage nq filtered with
    | some loc => some loc
    | none => fuzzyBest sm (7 / 10) nq filtered

def nationwideCitySearch (sm : List Char → List Char → ℚ)
    (vars : List (List Char)) (nq : List Char) (locs : List Location) :
    Option Location :=
  match cityExactStage vars locs with
  | some loc => some loc
  | none =>
    match cityNationwideSubstringStage nq locs with
    | some loc => some loc
    | none => fuzzyBest sm (7 / 10) nq locs

def search_city_municipality (sm : List Char → List Char → ℚ)
    (all_locations : List Location) (name : String)
    (province_code : Option String) : Option Location :=
  if name = "" then none
  else
    let nq := normalize_name name
    let vars := get_city_name_variations name
    match province_code with
    | some pc =>
      let filtered := all_locations.filter
        (fun loc => pyStartsWith loc.code ⟨pc.data.take 4⟩)
      match scopedCitySearch sm vars nq filtered with
      | some loc => some loc
      | none => nationwideCitySearch sm vars nq all_locations
    | none => nationwideCitySearch sm vars nq all_locations

/-! ## `PSGCAPIClient.search_barangay`

Transport oracles: `cityBarangaysOf code` models the city-scoped barangay
endpoint (`.error` for a non-200 response or a raised exception, both of
which the source swallows); `directLookup name` models the by-name endpoint
(`.ok none` for a 200 response whose data is null). -/

def search_barangay (sm : List Char → List Char → ℚ)
    (cityBarangaysOf : String → Except Unit (List Location))
    (directLookup : String → Except Unit (Option Location))
    (name : String) (city_municipality_code : Option String) :
    Option Location :=
  if name = "" then none
  else
    let nq := normalize_name name
    let step1 : Option Location :=
      match city_municipality_code with
      | none => none
      | some cc =>
        match cityBarangaysOf cc with
        | .error _ => none
        | .ok city_barangays =>
          match city_barangays.find?
              (fun b => normalize_name b.name == nq) with
          | some b => some b
          | none => fuzzyBest sm (7 / 10) nq city_barangays
    match step1 with
    | some b => some b
    | none =>
      let step2 : Option Location :=
        match directLookup name with
        | .error _ => none
        | .ok none => none
        | .ok (some b) =>
          match city_municipality_code with
          | some cc =>
            if pyStartsWith b.code ⟨cc.data.take 6⟩ then some b else none
          | none => some b
      match step2 with
      | some b => some b
      | none =>
        match city_municipality_code with
        | none => none
        | some cc =>
          let variations := [name] ++
            (if pyContains name "-" then []
             else ["Funda-" ++ name, "San-" ++ name,
                   "Santa-" ++ name, "Santo-" ++ name])
          variations.findSome? (fun v =>
            match directLookup v with
            | .ok (some b) =>
              if pyStartsWith b.code ⟨cc.data.take 6⟩ then some b else none
            | _ => none)

/-- A best-candidate fold that returns a result only ever returns a member
of the candidate list. -/
theorem fuzzyBest_foldl_mem (sm : List Char → List Char → ℚ) (threshold : ℚ)
    (query : List Char) :
    ∀ (l : List Location) (acc : Option Location × ℚ) (loc : Location),
      (l.foldl
        (fun acc loc =>
          let score := fuzzy_match sm query loc.name.data
          if acc.2 < score ∧ threshold ≤ score then (some loc, score) else acc)
        acc).1 = some loc → acc.1 = some loc ∨ loc ∈ l := by
  intro l
  induction l with
  | nil => intro acc loc h; exact Or.inl h
  | cons x xs ih =>
    intro acc loc h
    rcases ih _ loc h with h1 | h2
    · dsimp only at h1
      by_cases hc : acc.2 < fuzzy_match sm query x.name.data ∧
          threshold ≤ fuzzy_match sm query x.name.data
      · rw [if_pos hc] at h1
        simp only [Option.some.injEq] at h1
        exact Or.inr (h1 ▸ List.mem_cons_self x xs)
      · rw [if_neg hc] at h1
        exact Or.inl h1
    · exact Or.inr (List.mem_cons_of_mem x h2)

theorem fuzzyBest_mem {sm : List Char → List Char → ℚ} {threshold : ℚ}
    {query : List Char} {l : List Location} {loc : Location}
    (h : fuzzyBest sm threshold query l = some loc) : loc ∈ l := by
  unfold fuzzyBest at h
  rcases fuzzyBest_foldl_mem sm threshold query l (none, 0) loc h with h1 | h2
  · exact absurd h1 (by simp)
  · exact h2

theorem scopedCitySearch_mem {sm : List Char → List Char → ℚ}
    {vars : List (List Char)} {nq : List Char} {filtered : List Location}
    {loc : Location} (h : scopedCitySearch sm vars nq filtered = some loc) :
    loc ∈ filtered := by
  unfold scopedCitySearch at h
  rcases h1 : cityExactStage vars filtered with _ | l1
  · rw [h1] at h
    rcases h2 : cityScopedSubstringStage nq filtered with _ | l2
    · rw [h2] at h
      exact fuzzyBest_mem h
    · rw [h2] at h
      cases h
      exact List.mem_of_find?_eq_some h2
  · rw [h1] at h
    cases h
    exact List.mem_of_find?_eq_some h1

theorem findSome?_const_none {α β : Type} :
    ∀ (l : List α), l.findSome? (fun _ => (none : Option β)) = none := by
  intro l
  induction l with
  | nil => rfl
  | cons x xs ih => simp [List.findSome?, ih]

/-- C8: the reference-source search operations never raise: a transport
failure in the cached list fetch (or, for barangays, in every endpoint
attempt) is swallowed and produces the same unresolved `none` result as a
component genuinely absent from an empty reference source. -/
theorem searches_fold_transport_failure_to_not_found :
    (∀ (sm : List Char → List Char → ℚ) (e : String) (name : String),
        search_province sm (Except.error e) name = none) ∧
    (∀ (sm : List Char → List Char → ℚ) (e : String) (name : String),
        search_province sm (Except.error e) name =
          search_province sm (Except.ok []) name) ∧
    (∀ (sm : List Char → List Char → ℚ) (e : String) (name : String)
        (pc : Option String),
        search_city_municipality sm (get_all_cities (Except.error e))
          name pc = none) ∧
    (∀ (sm : List Char → List Char → ℚ) (name : String) (cc : Option String),
        search_barangay sm (fun _ => Except.error ())
          (fun _ => Except.error ()) name cc = none) := by
  refine ⟨?_, ?_, ?_, ?_⟩
  · intro sm e name
    unfold search_province get_all_provinces
    split <;> rfl
  · intro sm e name
    unfold search_province get_all_provinces
    split <;> rfl
  · intro sm e name pc
    unfold search_city_municipality get_all_cities
    split
    · rfl
    · cases pc <;> rfl
  · intro sm name cc
    unfold search_barangay
    split
    · rfl
    · cases cc with
      | none => rfl
      | some c => exact findSome?_const_none _

/-- C6: with a province context, city/municipality search runs the
exact-variation, substring and fuzzy stages scoped to the province first and
falls back to the same nationwide staged search; it is unresolved only when
both the scoped and the nationwide searches fail; a scoped hit wins and lies
in the province; and the generated name-variation forms include the
normalized base, the `city of X` / `X city` conversions for a plain name,
and the `municipality of X` conversion for a municipality-form name. -/
theorem search_city_scoped_then_nationwide_fallback :
    ∀ (sm : List Char → List Char → ℚ) (cities : List Location)
      (name pc : String), name ≠ "" →
    (search_city_municipality sm cities name (some pc) =
      (scopedCitySearch sm (get_city_name_variations name)
          (normalize_name name)
          (cities.filter
            (fun loc => pyStartsWith loc.code ⟨pc.data.take 4⟩))).orElse
        (fun _ => nationwideCitySearch sm (get_city_name_variations name)
          (normalize_name name) cities)) ∧
    (search_city_municipality sm cities name (some pc) = none ↔
      scopedCitySearch sm (get_city_name_variations name)
          (normalize_name name)
          (cities.filter
            (fun loc => pyStartsWith loc.code ⟨pc.data.take 4⟩)) = none ∧
      nationwideCitySearch sm (get_city_name_variations name)
          (normalize_name name) cities = none) ∧
    (∀ loc : Location,
      scopedCitySearch sm (get_city_name_variations name)
          (normalize_name name)
          (cities.filter
            (fun l => pyStartsWith l.code ⟨pc.data.take 4⟩)) = some loc →
      search_city_municipality sm cities name (some pc) = some loc ∧
      pyStartsWith loc.code ⟨pc.data.take 4⟩ = true) ∧
    (normalize_name name ∈ get_city_name_variations name) ∧
    (¬ (" city".data <:+: normalize_name name) →
     ¬ ("city of".data <+: normalize_name name) →
      ("city of ".data ++ normalize_name name) ∈
          get_city_name_variations name ∧
      (normalize_name name ++ " city".data) ∈
          get_city_name_variations name) ∧
    ((" city".data <:+: normalize_name name) →
      pyStrip (pyReplace " city".data [] (normalize_name name)) ∈
          get_city_name_variations name ∧
      ("city of ".data ++
          pyStrip (pyReplace " city".data [] (normalize_name name))) ∈
          get_city_name_variations name) ∧
    ((" municipality".data <:+: normalize_name name) →
      pyStrip (pyReplace " municipality".data [] (normalize_name name)) ∈
          get_city_name_variations name ∧
      ("municipality of ".data ++
          pyStrip (pyReplace " municipality".data [] (normalize_name name)))
          ∈ get_city_name_variations name) := by
  intro sm cities name pc hname
  refine ⟨?_, ?_, ?_, ?_, ?_, ?_, ?_⟩
  · cases h : scopedCitySearch sm (get_city_name_variations name)
        (normalize_name name)
        (cities.filter (fun loc => pyStartsWith loc.code ⟨pc.data.take 4⟩)) with
    | none => simp [search_city_municipality, hname, h, Option.orElse]
    | some loc => simp [search_city_municipality, hname, h, Option.orElse]
  · constructor
    · intro h
      cases h1 : scopedCitySearch sm (get_city_name_variations name)
          (normalize_name name)
          (cities.filter (fun loc => pyStartsWith loc.code ⟨pc.data.take 4⟩)) with
      | none =>
        refine ⟨rfl, ?_⟩
        simpa [search_city_municipality, hname, h1] using h
      | some loc =>
        exfalso
        simp [search_city_municipality, hname, h1] at h
    · intro ⟨h1, h2⟩
      simp [search_city_municipality, hname, h1, h2]
  · intro loc h
    refine ⟨by simp [search_city_municipality, hname, h], ?_⟩
    have hmem := scopedCitySearch_mem h
    exact (List.mem_filter.mp hmem).2
  · by_cases hc : (" city".data <:+: normalize_name name) <;>
    by_cases hp : ("city of".data <+: normalize_name name) <;>
    by_cases hm : (" municipality".data <:+: normalize_name name) <;>
      simp [get_city_name_variations, List.mem_dedup, hc, hp, hm]
  · intro hc hp
    by_cases hm : (" municipality".data <:+: normalize_name name) <;>
      constructor <;>
        simp [get_city_name_variations, List.mem_dedup, hc, hp, hm]
  · intro hc
    by_cases hm : (" municipality".data <:+: normalize_name name) <;>
      constructor <;>
        simp [get_city_name_variations, List.mem_dedup, hc, hm]
  · intro hm
    by_cases hc : (" city".data <:+: normalize_name name) <;>
    by_cases hp : ("city of".data <+: normalize_name name) <;>
      constructor <;>
        simp [get_city_name_variations, List.mem_dedup, hc, hp, hm]

/-- Closed witness for C6 at a concrete input. -/
theorem search_city_scoped_then_nationwide_fallback_witness :
    normalize_name "Cebu" ∈ get_city_name_variations "Cebu" :=
  (search_city_scoped_then_nationwide_fallback (fun _ _ => 0) [] "Cebu" "0722"
    (by decide)).2.2.2.1

/-! ## `verify_geographic_hierarchy` (utils/llm_agent_validator.py)

The hierarchy-check tool: resolve the province, then the city scoped to the
province's code, then (when supplied) the barangay scoped to the city's
code; `city_valid`/`city_in_province` are both set whenever the city search
returns anything, and `hierarchy_valid` is the recorded conjunction.  In the
PSGC data model parentage is the code-prefix relation, the same relation the
source uses to scope city searches (`code.startswith(province_code[:4])`)
and to accept direct barangay lookups (`code.startswith(city_code[:6])`). -/

structure HierarchyDetails where
  province_valid : Bool
  city_valid : Bool
  barangay_valid : Bool
  city_in_province : Bool
  barangay_in_city : Bool
deriving DecidableEq

structure HierarchyResult where
  hierarchy_valid : Bool
  details : HierarchyDetails
deriving DecidableEq

def verify_geographic_hierarchy (sm : List Char → List Char → ℚ)
    (provFetch : Except String (List Location)) (cities : List Location)
    (cityBarangaysOf : String → Except Unit (List Location))
    (directLookup : String → Except Unit (Option Location))
    (province city barangay : String) : HierarchyResult :=
  let init : HierarchyDetails := ⟨false, false, false, false, false⟩
  let details :=
    match search_province sm provFetch province with
    | none => init
    | some p =>
      let d1 := { init with province_valid := true }
      match search_city_municipality sm cities city (some p.code) with
      | none => d1
      | some c =>
        let d2 := { d1 with city_valid := true, city_in_province := true }
        if barangay = "" then d2
        else
          match search_barangay sm cityBarangaysOf directLookup barangay
              (some c.code) with
          | none => d2
          | some _ =>
            { d2 with barangay_valid := true, barangay_in_city := true }
  let all_valid := details.province_valid && details.city_valid &&
    details.city_in_province && (barangay = "" || details.barangay_valid)
  ⟨all_valid, details⟩

/-- C3 counterexample: a concrete run in which all of province, city and
barangay are supplied and `hierarchy_valid` is reported `true`, yet the
resolved city's code does not lie under the resolved province's code (the
city was recovered by the nationwide fallback and still recorded as
in-province) and the resolved barangay's code does not lie under the
resolved city's code. -/
theorem verify_geographic_hierarchy_counterexample :
    (verify_geographic_hierarchy (fun _ _ => 0)
        (Except.ok [⟨"0100000000", "Alpha", none⟩])
        [⟨"9988776655", "Beta", none⟩]
        (fun _ => Except.ok [⟨"1234567890123", "Gamma", none⟩])
        (fun _ => Except.error ())
        "Alpha" "Beta" "Gamma").hierarchy_valid = true ∧
    search_province (fun _ _ => 0)
        (Except.ok [⟨"0100000000", "Alpha", none⟩]) "Alpha" =
      some ⟨"0100000000", "Alpha", none⟩ ∧
    search_city_municipality (fun _ _ => 0) [⟨"9988776655", "Beta", none⟩]
        "Beta" (some "0100000000") = some ⟨"9988776655", "Beta", none⟩ ∧
    pyStartsWith "9988776655" ⟨"0100000000".data.take 4⟩ = false ∧
    search_barangay (fun _ _ => 0)
        (fun _ => Except.ok [⟨"1234567890123", "Gamma", none⟩])
        (fun _ => Except.error ()) "Gamma" (some "9988776655") =
      some ⟨"1234567890123", "Gamma", none⟩ ∧
    pyStartsWith "1234567890123" ⟨"9988776655".data.take 6⟩ = false := by
  decide

/-- C3 amended: `hierarchy_valid = true` does imply that each supplied
component was individually resolved against a reference source (the
province directly, the city given the resolved province's code, and the
barangay, when supplied, given the resolved city's code); the parent-code
linkage equalities are not implied. -/
theorem verify_geographic_hierarchy_amended :
    ∀ (sm : List Char → List Char → ℚ)
      (provFetch : Except String (List Location)) (cities : List Location)
      (cityBarangaysOf : String → Except Unit (List Location))
      (directLookup : String → Except Unit (Option Location))
      (province city barangay : String),
      (verify_geographic_hierarchy sm provFetch cities cityBarangaysOf
          directLookup province city barangay).hierarchy_valid = true →
      ∃ p, search_province sm provFetch province = some p ∧
        ∃ c, search_city_municipality sm cities city (some p.code) = some c ∧
          (barangay ≠ "" →
            ∃ b, search_barangay sm cityBarangaysOf directLookup barangay
                (some c.code) = some b) := by
  intro sm provFetch cities cityBarangaysOf directLookup province city
    barangay h
  unfold verify_geographic_hierarchy at h
  rcases hp : search_province sm provFetch province with _ | p
  · rw [hp] at h
    simp at h
  · rw [hp] at h
    dsimp only at h
    rcases hc : search_city_municipality sm cities city (some p.code) with _ | c
    · rw [hc] at h
      simp at h
    · rw [hc] at h
      dsimp only at h
      refine ⟨p, rfl, c, hc, ?_⟩
      intro hbar
      rw [if_neg hbar] at h
      rcases hb : search_barangay sm cityBarangaysOf directLookup barangay
          (some c.code) with _ | b
      · rw [hb] at h
        simp [hbar] at h
      · exact ⟨b, rfl⟩

/-- Closed witness for the amended C3 at a consistent concrete input. -/
theorem verify_geographic_hierarchy_amended_witness :
    ∃ p, search_province (fun _ _ => 0)
        (Except.ok [⟨"0102000000", "Alpha", none⟩]) "Alpha" = some p ∧
      ∃ c, search_city_municipality (fun _ _ => 0)
          [⟨"0102030000", "Beta", none⟩] "Beta" (some p.code) = some c ∧
        ("Gamma" ≠ "" →
          ∃ b, search_barangay (fun _ _ => 0)
              (fun _ => Except.ok [⟨"0102030001", "Gamma", none⟩])
              (fun _ => Except.error ()) "Gamma" (some c.code) = some b) :=
  verify_geographic_hierarchy_amended (fun _ _ => 0)
    (Except.ok [⟨"0102000000", "Alpha", none⟩])
    [⟨"0102030000", "Beta", none⟩]
    (fun _ => Except.ok [⟨"0102030001", "Gamma", none⟩])
    (fun _ => Except.error ())
    "Alpha" "Beta" "Gamma" (by decide)

/-! ## Verdict and response records (schema.py) -/

structure VerdictResponse where
  isValid : Bool
  structureOk : Bool
  psgcMatched : Bool
  geocodeMatched : Bool
  deliveryHistorySuccess : Bool
  confidence : Int
deriving DecidableEq

structure StructureResponse where
  streetAddress : String
  barangay : String
  city : String
  province : String
  country : String
  postalCode : String
  formattedAddress : String
deriving DecidableEq

structure PSGCResponse where
  regionCode : String
  provinceCode : String
  cityMuniCode : String
  barangayCode : String
deriving DecidableEq

structure GeocodeResponse where
  lat : ℚ
  lng : ℚ
  place_id : String
  formattedAddress : String
deriving DecidableEq

structure DeliveryHistoryAddress where
  address : String
  status : String
  last_delivery_at : String
  rts_reason : String
deriving DecidableEq

structure DeliveryHistoryResponse where
  inputAddress : DeliveryHistoryAddress
  formattedAddress : DeliveryHistoryAddress
deriving DecidableEq

/-- `EnhancedAddressValidationResponse`; the source's `structure` field is
named `structureData` here because `structure` is a Lean keyword. -/
structure EnhancedResponse where
  id : String
  input : String
  formattedAddress : String
  verdict : VerdictResponse
  structureData : StructureResponse
  psgc : PSGCResponse
  geocode : GeocodeResponse
  deliveryHistory : DeliveryHistoryResponse
  reason : List String
  suggestions : List String
deriving DecidableEq

/-! ## Delivery-history signal (`_check_delivery_history` of
utils/validator.py and utils/validator_agent.py)

A raw history row from `database_client.get_delivery_history`, with the
fields the formatter reads (`dict.get` yields `none` for a missing key). -/

structure DeliveryRecord where
  address : Option String
  status : Option String
  last_delivery : Option String
  failure_reason : Option String
deriving DecidableEq

def format_history (history_records : List DeliveryRecord) :
    DeliveryHistoryAddress :=
  match history_records with
  | [] => ⟨"", "", "", ""⟩
  | record :: _ =>
    ⟨record.address.getD "", record.status.getD "",
     record.last_delivery.getD "", record.failure_reason.getD ""⟩

def delivery_success_of (original_history formatted_history :
    List DeliveryRecord) : Int :=
  let ds : Int := 0
  let ds :=
    match original_history with
    | [] => ds
    | record :: _ =>
      if record.status = some "DELIVERED" then 1
      else if record.status = some "RETURN TO SENDER" then -1
      else ds
  match formatted_history with
  | [] => ds
  | record :: _ =>
    if record.status = some "DELIVERED" then 1
    else if record.status = some "RETURN TO SENDER" then -1
    else ds

def check_delivery_history (original_history formatted_history :
    List DeliveryRecord) : Int × DeliveryHistoryResponse :=
  (delivery_success_of original_history formatted_history,
   ⟨format_history original_history, format_history formatted_history⟩)

/-- The outcome C10 ascribes to a single record status: positive exactly for
DELIVERED, negative exactly for RETURN TO SENDER, unknown otherwise. -/
def statusOutcome (s : Option String) : Int :=
  if s = some "DELIVERED" then 1
  else if s = some "RETURN TO SENDER" then -1
  else 0

/-- The delivery outcome as claim C10 states it: the formatted-address
history's first record determines the outcome whenever that history is
non-empty, otherwise the original-input history's first record does. -/
def claimDeliveryOutcome (original_history formatted_history :
    List DeliveryRecord) : Int :=
  match formatted_history with
  | record :: _ => statusOutcome record.status
  | [] =>
    match original_history with
    | record :: _ => statusOutcome record.status
    | [] => 0

/-- The amended outcome: the formatted history's first record overrides the
original's outcome only when its status is DELIVERED or RETURN TO SENDER;
for any other status the original-input outcome stands. -/
def amendedDeliveryOutcome (original_history formatted_history :
    List DeliveryRecord) : Int :=
  let base :=
    match original_history with
    | [] => 0
    | record :: _ => statusOutcome record.status
  match formatted_history with
  | [] => base
  | record :: _ =>
    if record.status = some "DELIVERED" ∨
        record.status = some "RETURN TO SENDER" then
      statusOutcome record.status
    else base

/-- C10 counterexample: with a DELIVERED original-input history and a
formatted-address history whose most recent status is neither DELIVERED nor
RETURN TO SENDER, the code keeps the positive outcome from the original
history, while the claim says the formatted history's first record
determines the outcome (unknown, 0). -/
theorem delivery_outcome_counterexample :
    delivery_success_of [⟨none, some "DELIVERED", none, none⟩]
        [⟨none, some "IN TRANSIT", none, none⟩] = 1 ∧
    claimDeliveryOutcome [⟨none, some "DELIVERED", none, none⟩]
        [⟨none, some "IN TRANSIT", none, none⟩] = 0 ∧
    delivery_success_of [⟨none, some "DELIVERED", none, none⟩]
        [⟨none, some "IN TRANSIT", none, none⟩] ≠
      claimDeliveryOutcome [⟨none, some "DELIVERED", none, none⟩]
        [⟨none, some "IN TRANSIT", none, none⟩] := by
  decide

/-- C10 amended: the delivery outcome is derived only from the first record
of each history; it is positive exactly for DELIVERED and negative exactly
for RETURN TO SENDER; and the formatted-address history's first record
overrides the original-input outcome exactly when its status is DELIVERED
or RETURN TO SENDER. -/
theorem delivery_outcome_amended :
    ∀ (original_history formatted_history : List DeliveryRecord),
      delivery_success_of original_history formatted_history =
        amendedDeliveryOutcome original_history formatted_history := by
  intro o f
  cases o with
  | nil =>
    cases f with
    | nil => rfl
    | cons r _ =>
      by_cases h1 : r.status = some "DELIVERED" <;>
      by_cases h2 : r.status = some "RETURN TO SENDER" <;>
        simp [delivery_success_of, amendedDeliveryOutcome, statusOutcome,
          h1, h2]
  | cons q _ =>
    cases f with
    | nil =>
      by_cases h1 : q.status = some "DELIVERED" <;>
      by_cases h2 : q.status = some "RETURN TO SENDER" <;>
        simp [delivery_success_of, amendedDeliveryOutcome, statusOutcome,
          h1, h2]
    | cons r _ =>
      by_cases h1 : r.status = some "DELIVERED" <;>
      by_cases h2 : r.status = some "RETURN TO SENDER" <;>
      by_cases h3 : q.status = some "DELIVERED" <;>
      by_cases h4 : q.status = some "RETURN TO SENDER" <;>
        simp [delivery_success_of, amendedDeliveryOutcome, statusOutcome,
          h1, h2, h3, h4]

/-! ## Confidence scorer and validity predicate
(`_calculate_verdict` of utils/validator.py lines 526-572 and of
utils/validator_agent.py lines 819-855; `_build_response` of
utils/validator_agent.py lines 987-1002)

The rejection and reference-error signals are substring scans over the
accumulated reason strings, exactly as in the source. -/

def is_non_ph_rejection (reasons : List String) : Bool :=
  reasons.any (fun r => pyContains r "only validate Philippine addresses")

def has_psgc_api_errors (reasons : List String) : Bool :=
  reasons.any (fun r => pyContains r "not found in PSGC API")

/-- The confidence computation shared verbatim by both `_calculate_verdict`
implementations. -/
def calcConfidence (structure_ok psgc_matched geocode_matched : Bool)
    (delivery_success : Int) (has_errors : Bool) : Int :=
  if structure_ok && psgc_matched && geocode_matched &&
      (delivery_success == 1) then 99
  else if !structure_ok && !psgc_matched && !geocode_matched &&
      decide (delivery_success ≤ 0) then 0
  else
    let c : Int := 50
    let c := c + (if delivery_success == 1 then 15
                  else if delivery_success == 0 then 0 else -15)
    let c := c + (if structure_ok then 20 else -10)
    let c := c + (if psgc_matched then 10 else -5)
    let c := c + (if geocode_matched then 4 else -2)
    let c := if has_errors then c - 20 else c
    max 0 (min 100 c)

/-- The validity predicate shared verbatim by `validator._calculate_verdict`
and `validator_agent._build_response`. -/
def calcIsValid (structure_ok psgc_matched geocode_matched : Bool)
    (delivery_success : Int) (is_non_ph has_errors : Bool) : Bool :=
  if is_non_ph then false
  else if has_errors && !(delivery_success == 1) then false
  else structure_ok || psgc_matched || geocode_matched ||
    (delivery_success == 1)

/-- `AddressValidator._calculate_verdict` (utils/validator.py): the
`philatlas_validated` flag is read by the source but never used. -/
def calculate_verdict (structure_ok psgc_matched geocode_matched : Bool)
    (delivery_success : Int) (reasons : List String) : VerdictResponse :=
  let is_non_ph := is_non_ph_rejection reasons
  let has_errors := has_psgc_api_errors reasons
  ⟨calcIsValid structure_ok psgc_matched geocode_matched delivery_success
      is_non_ph has_errors,
   structure_ok, psgc_matched, geocode_matched,
   delivery_success == 1,
   calcConfidence structure_ok psgc_matched geocode_matched
     delivery_success has_errors⟩

/-! Spec-side formulations (spec.md, section 4.6), to be compared with the
source-level definitions above. -/

/-- Modelled from the spec wording of the confidence formula: 99 at the
all-positive ceiling, 0 at the all-negative floor, otherwise base 50 plus
the delta table, minus the hard reference-validation penalty, clamped to
[0, 100]. -/
def specConfidence (structureOk referenceMatched geocodeMatched : Bool)
    (delivery : Int) (componentFailedReference : Bool) : Int :=
  if structureOk ∧ referenceMatched ∧ geocodeMatched ∧ 0 < delivery then 99
  else if ¬structureOk ∧ ¬referenceMatched ∧ ¬geocodeMatched ∧
      delivery ≤ 0 then 0
  else
    let base : Int := 50 +
      (if 0 < delivery then 15 else if delivery = 0 then 0 else -15) +
      (if structureOk then 20 else -10) +
      (if referenceMatched then 10 else -5) +
      (if geocodeMatched then 4 else -2) -
      (if componentFailedReference then 20 else 0)
    min 100 (max 0 base)

/-- Modelled from the spec wording of the validity predicate. -/
def specIsValid (structureOk referenceMatched geocodeMatched : Bool)
    (delivery : Int) (countryMismatch referenceErrors : Bool) : Bool :=
  if countryMismatch then false
  else if referenceErrors && !(decide (0 < delivery)) then false
  else structureOk || referenceMatched || geocodeMatched ||
    decide (0 < delivery)

theorem calcConfidence_eq_spec :
    ∀ (s p g e : Bool) (ds : Int), ds = -1 ∨ ds = 0 ∨ ds = 1 →
      calcConfidence s p g ds e = specConfidence s p g ds e := by
  intro s p g e ds h
  rcases h with h | h | h <;> subst h <;> revert s p g e <;> decide

theorem calcIsValid_eq_spec :
    ∀ (s p g n e : Bool) (ds : Int), ds = -1 ∨ ds = 0 ∨ ds = 1 →
      calcIsValid s p g ds n e = specIsValid s p g ds n e := by
  intro s p g n e ds h
  rcases h with h | h | h <;> subst h <;> revert s p g n e <;> decide

/-- C1: in every terminal state (any flag combination, any delivery outcome
the delivery check can produce, any accumulated reasons), the confidence of
the computed verdict equals the documented spec formula, with the hard
penalty triggered by the recorded reference-validation error reasons. -/
theorem calculate_verdict_confidence_formula :
    ∀ (s p g : Bool) (ds : Int) (reasons : List String),
      ds = -1 ∨ ds = 0 ∨ ds = 1 →
      (calculate_verdict s p g ds reasons).confidence =
        specConfidence s p g ds (has_psgc_api_errors reasons) := by
  intro s p g ds reasons h
  exact calcConfidence_eq_spec s p g (has_psgc_api_errors reasons) ds h

/-- Closed witness for C1: the all-positive ceiling case evaluates to 99. -/
theorem calculate_verdict_confidence_formula_witness :
    (calculate_verdict true true true 1 []).confidence =
      specConfidence true true true 1 (has_psgc_api_errors []) :=
  calculate_verdict_confidence_formula true true true 1 []
    (Or.inr (Or.inr rfl))

/-! ## The LangGraph agent state (utils/validator_agent.py, ValidationState) -/

structure AgentState where
  validation_id : String
  original_address : String
  clean_address : String
  country : String
  structure_ok : Bool
  psgc_matched : Bool
  geocode_matched : Bool
  psgc_api_validated : Bool
  delivery_history_success : Int
  province : String
  city : String
  barangay : String
  street_address : String
  postal_code : String
  province_code : String
  city_code : String
  barangay_code : String
  latitude : ℚ
  longitude : ℚ
  place_id : String
  geocode_formatted_address : String
  geocode_city : String
  geocode_barangay : String
  geocode_postal : String
  region_id : String
  province_id : String
  city_id : String
  barangay_id : String
  formatted_address : String
  confidence : Int
  reasons : List String
  suggestions : List String
  delivery_history : Option DeliveryHistoryResponse
  current_step : String
  error : Option String
deriving DecidableEq

/-! ## First-occurrence deduplication
(the seen-set loops of `validator_agent._build_response`) -/

def dedupKeepFirstAux (seen : List String) : List String → List String
  | [] => []
  | r :: rest =>
    if r ∈ seen then dedupKeepFirstAux seen rest
    else r :: dedupKeepFirstAux (r :: seen) rest

def dedupKeepFirst (l : List String) : List String :=
  dedupKeepFirstAux [] l

theorem mem_dedupKeepFirstAux :
    ∀ (l seen : List String) (x : String),
      x ∈ dedupKeepFirstAux seen l ↔ (x ∈ l ∧ x ∉ seen) := by
  intro l
  induction l with
  | nil => intro seen x; simp [dedupKeepFirstAux]
  | cons r rest ih =>
    intro seen x
    by_cases hr : r ∈ seen
    · simp only [dedupKeepFirstAux, if_pos hr, ih, List.mem_cons]
      constructor
      · rintro ⟨h1, h2⟩; exact ⟨Or.inr h1, h2⟩
      · rintro ⟨h1 | h1, h2⟩
        · exact absurd (h1 ▸ hr) h2
        · exact ⟨h1, h2⟩
    · simp only [dedupKeepFirstAux, if_neg hr, List.mem_cons, ih, not_or]
      constructor
      · rintro (rfl | ⟨h1, h2, h3⟩)
        · exact ⟨Or.inl rfl, hr⟩
        · exact ⟨Or.inr h1, h3⟩
      · rintro ⟨rfl | h1, h2⟩
        · exact Or.inl rfl
        · by_cases hx : x = r
          · exact Or.inl hx
          · exact Or.inr ⟨h1, hx, h2⟩

theorem mem_dedupKeepFirst (l : List String) (x : String) :
    x ∈ dedupKeepFirst l ↔ x ∈ l := by
  unfold dedupKeepFirst
  rw [mem_dedupKeepFirstAux]
  simp

theorem nodup_dedupKeepFirstAux :
    ∀ (l seen : List String), (dedupKeepFirstAux seen l).Nodup := by
  intro l
  induction l with
  | nil => intro seen; simp [dedupKeepFirstAux]
  | cons r rest ih =>
    intro seen
    by_cases hr : r ∈ seen
    · simpa [dedupKeepFirstAux, if_pos hr] using ih seen
    · rw [dedupKeepFirstAux, if_neg hr]
      refine List.nodup_cons.mpr ⟨?_, ih (r :: seen)⟩
      intro hmem
      exact ((mem_dedupKeepFirstAux rest (r :: seen) r).mp hmem).2
        (List.mem_cons_self r seen)

theorem nodup_dedupKeepFirst (l : List String) :
    (dedupKeepFirst l).Nodup :=
  nodup_dedupKeepFirstAux l []

theorem any_dedupKeepFirst (l : List String) (f : String → Bool) :
    (dedupKeepFirst l).any f = l.any f := by
  rcases h1 : (dedupKeepFirst l).any f with _ | _ <;>
    rcases h2 : l.any f with _ | _
  · rfl
  · rw [List.any_eq_true] at h2
    rcases h2 with ⟨x, hx, hfx⟩
    have : (dedupKeepFirst l).any f = true :=
      List.any_eq_true.mpr ⟨x, (mem_dedupKeepFirst l x).mpr hx, hfx⟩
    rw [h1] at this
    exact absurd this (by simp)
  · rw [List.any_eq_true] at h1
    rcases h1 with ⟨x, hx, hfx⟩
    have : l.any f = true :=
      List.any_eq_true.mpr ⟨x, (mem_dedupKeepFirst l x).mp hx, hfx⟩
    rw [h2] at this
    exact absurd this (by simp)
  · rfl

/-! ## `AddressValidatorAgent._build_response` (utils/validator_agent.py) -/

def agent_build_response (s : AgentState) : EnhancedResponse :=
  let unique_reasons := dedupKeepFirst s.reasons
  let unique_suggestions := dedupKeepFirst s.suggestions
  let is_non_ph := is_non_ph_rejection unique_reasons
  let has_errors := has_psgc_api_errors unique_reasons
  let is_valid := calcIsValid s.structure_ok s.psgc_matched s.geocode_matched
    s.delivery_history_success is_non_ph has_errors
  { id := s.validation_id,
    input := s.original_address,
    formattedAddress :=
      if s.formatted_address ≠ "" then s.formatted_address
      else s.geocode_formatted_address,
    verdict := ⟨is_valid, s.structure_ok, s.psgc_matched, s.geocode_matched,
      s.delivery_history_success == 1, s.confidence⟩,
    structureData := ⟨s.street_address, s.barangay, s.city, s.province,
      s.country, s.postal_code, s.formatted_address⟩,
    psgc := ⟨s.region_id, s.province_id, s.city_id, s.barangay_id⟩,
    geocode := ⟨s.latitude, s.longitude, s.place_id,
      s.geocode_formatted_address⟩,
    deliveryHistory := s.delivery_history.getD ⟨⟨"", "", "", ""⟩, ⟨"", "", "", ""⟩⟩,
    reason := unique_reasons,
    suggestions := unique_suggestions }

/-- C2: in every terminal state, the isValid of the verdict — as computed by
`validator._calculate_verdict` and by `validator_agent._build_response` —
matches the documented spec predicate: false under a country-mismatch
rejection reason; else false when reference-validation errors exist and the
delivery outcome is not positive; else true exactly when at least one of
structureOk, referenceMatched, geocodeMatched, or a positive delivery
outcome holds. -/
theorem is_valid_matches_spec_predicate :
    (∀ (s p g : Bool) (ds : Int) (reasons : List String),
        ds = -1 ∨ ds = 0 ∨ ds = 1 →
        (calculate_verdict s p g ds reasons).isValid =
          specIsValid s p g ds (is_non_ph_rejection reasons)
            (has_psgc_api_errors reasons)) ∧
    (∀ st : AgentState,
        st.delivery_history_success = -1 ∨ st.delivery_history_success = 0 ∨
          st.delivery_history_success = 1 →
        (agent_build_response st).verdict.isValid =
          specIsValid st.structure_ok st.psgc_matched st.geocode_matched
            st.delivery_history_success (is_non_ph_rejection st.reasons)
            (has_psgc_api_errors st.reasons)) := by
  constructor
  · intro s p g ds reasons h
    exact calcIsValid_eq_spec s p g (is_non_ph_rejection reasons)
      (has_psgc_api_errors reasons) ds h
  · intro st h
    show calcIsValid st.structure_ok st.psgc_matched st.geocode_matched
        st.delivery_history_success
        (is_non_ph_rejection (dedupKeepFirst st.reasons))
        (has_psgc_api_errors (dedupKeepFirst st.reasons)) = _
    rw [is_non_ph_rejection, any_dedupKeepFirst, is_non_ph_rejection,
      has_psgc_api_errors, any_dedupKeepFirst, has_psgc_api_errors]
    exact calcIsValid_eq_spec st.structure_ok st.psgc_matched
      st.geocode_matched (st.reasons.any
        (fun r => pyContains r "only validate Philippine addresses"))
      (st.reasons.any (fun r => pyContains r "not found in PSGC API"))
      st.delivery_history_success h

/-- A concrete agent state used by closed witnesses. -/
def demoAgentState : AgentState :=
  { validation_id := "id-1", original_address := "addr", clean_address := "addr",
    country := "PH", structure_ok := true, psgc_matched := false,
    geocode_matched := false, psgc_api_validated := true,
    delivery_history_success := 0, province := "", city := "", barangay := "",
    street_address := "", postal_code := "", province_code := "",
    city_code := "", barangay_code := "", latitude := 0, longitude := 0,
    place_id := "", geocode_formatted_address := "", geocode_city := "",
    geocode_barangay := "", geocode_postal := "", region_id := "",
    province_id := "", city_id := "", barangay_id := "",
    formatted_address := "", confidence := 0, reasons := ["dup", "dup"],
    suggestions := ["s1", "s1", "s2"], delivery_history := none,
    current_step := "check_delivery", error := none }

/-- Closed witness for C2 covering both implementations. -/
theorem is_valid_matches_spec_predicate_witness :
    (calculate_verdict true false false 0 []).isValid =
      specIsValid true false false 0 (is_non_ph_rejection [])
        (has_psgc_api_errors []) ∧
    (agent_build_response demoAgentState).verdict.isValid =
      specIsValid demoAgentState.structure_ok demoAgentState.psgc_matched
        demoAgentState.geocode_matched
        demoAgentState.delivery_history_success
        (is_non_ph_rejection demoAgentState.reasons)
        (has_psgc_api_errors demoAgentState.reasons) :=
  ⟨is_valid_matches_spec_predicate.1 true false false 0 []
      (Or.inr (Or.inl rfl)),
   is_valid_matches_spec_predicate.2 demoAgentState (Or.inr (Or.inl rfl))⟩

/-! ## The LangGraph orchestration (utils/validator_agent.py)

`_build_graph` wires eleven nodes with four conditional routers.  The node
bodies update the state through external collaborators, so the execution
model abstracts them as an arbitrary family of state transformers `f`; the
routers and the edge wiring are translated from source.  LangGraph runs a
node's body and then evaluates the outgoing conditional edge on the updated
state; `graphTrace` reproduces that and records the visited nodes. -/

inductive Node where
  | init
  | validate_country
  | parse_address
  | apply_typo_corrections
  | validate_psgc_api
  | match_psgc
  | geocode
  | refine_with_geocode
  | check_delivery
  | retry_with_suggestions
  | calculate_verdict
deriving DecidableEq

/-- `_route_after_country_check`. -/
def route_after_country_check (s : AgentState) : String :=
  if s.country = "PH" then "parse" else "end"

/-- `_route_after_psgc`: skip geocoding only with all four components
present (Python truthiness: non-empty strings) and a PSGC match. -/
def route_after_psgc (s : AgentState) : String :=
  let has_all_components :=
    (s.province != "") && (s.city != "") && (s.barangay != "") &&
    (s.postal_code != "")
  if has_all_components && s.psgc_matched then "skip_geocode" else "geocode"

/-- `_route_after_geocode`. -/
def route_after_geocode (s : AgentState) : String :=
  let geocode_provided_data :=
    s.geocode_matched && (decide (s.latitude ≠ 0) || decide (s.longitude ≠ 0))
  let missing_components :=
    !((s.province != "") && (s.city != "") && (s.barangay != ""))
  if geocode_provided_data && missing_components then "refine" else "continue"

/-- `_route_after_delivery`: retry on low confidence, no positive signal,
available suggestions, and no recorded retry marker in the current step. -/
def route_after_delivery (s : AgentState) : String :=
  let low_confidence := decide (s.confidence < 50)
  let no_positive_signals :=
    !s.structure_ok && !s.psgc_matched && !s.geocode_matched &&
    decide (s.delivery_history_success ≤ 0)
  let has_suggestions := decide (0 < s.suggestions.length)
  let already_retried := pyContains s.current_step "retry_attempted"
  if low_confidence && no_positive_signals && has_suggestions &&
      !already_retried then "retry"
  else "finish"

/-- The edge wiring of `_build_graph`: linear edges plus the four
conditional-edge dictionaries; `calculate_verdict` goes to END. -/
def nextNode (n : Node) (s : AgentState) : Option Node :=
  match n with
  | .init => some .validate_country
  | .validate_country =>
    if route_after_country_check s = "parse" then some .parse_address
    else some .calculate_verdict
  | .parse_address => some .apply_typo_corrections
  | .apply_typo_corrections => some .validate_psgc_api
  | .validate_psgc_api => some .match_psgc
  | .match_psgc =>
    if route_after_psgc s = "geocode" then some .geocode
    else some .check_delivery
  | .geocode =>
    if route_after_geocode s = "refine" then some .refine_with_geocode
    else some .check_delivery
  | .refine_with_geocode => some .check_delivery
  | .check_delivery =>
    if route_after_delivery s = "retry" then some .retry_with_suggestions
    else some .calculate_verdict
  | .retry_with_suggestions => some .calculate_verdict
  | .calculate_verdict => none

/-- Execute the graph from node `n` on state `s` with node bodies `f`,
recording the visited nodes (fuel-bounded; the graph is acyclic so any
sufficient fuel gives the full run). -/
def graphTrace (f : Node → AgentState → AgentState) :
    Nat → Node → AgentState → List Node
  | 0, _, _ => []
  | fuel + 1, n, s =>
    let s2 := f n s
    match nextNode n s2 with
    | none => [n]
    | some n2 => n :: graphTrace f fuel n2 s2

/-- The same execution, recording at every visited node the updated state
the outgoing conditional edge was evaluated on.  `graphTrace` is its
node projection. -/
def graphRun (f : Node → AgentState → AgentState) :
    Nat → Node → AgentState → List (Node × AgentState)
  | 0, _, _ => []
  | fuel + 1, n, s =>
    let s2 := f n s
    match nextNode n s2 with
    | none => [(n, s2)]
    | some n2 => (n, s2) :: graphRun f fuel n2 s2

theorem graphTrace_eq_graphRun_map (f : Node → AgentState → AgentState) :
    ∀ (fuel : Nat) (n : Node) (s : AgentState),
      graphTrace f fuel n s = (graphRun f fuel n s).map Prod.fst := by
  intro fuel
  induction fuel with
  | zero => intro n s; rfl
  | succ fuel ih =>
    intro n s
    rw [graphTrace, graphRun]
    rcases hn : nextNode n (f n s) with _ | n2
    · simp
    · simp [ih]

theorem graphTrace_calculate_verdict (f : Node → AgentState → AgentState) :
    ∀ (fuel : Nat) (s : AgentState),
      (graphTrace f fuel Node.calculate_verdict s).count
        Node.retry_with_suggestions = 0 := by
  intro fuel s
  cases fuel <;> rfl

theorem route_after_delivery_retry_iff (s : AgentState) :
    route_after_delivery s = "retry" ↔
      (s.confidence < 50 ∧ s.structure_ok = false ∧ s.psgc_matched = false ∧
       s.geocode_matched = false ∧ s.delivery_history_success ≤ 0 ∧
       s.suggestions ≠ [] ∧
       pyContains s.current_step "retry_attempted" = false) := by
  by_cases h1 : s.confidence < 50 <;>
  by_cases h2 : s.structure_ok = true <;>
  by_cases h3 : s.psgc_matched = true <;>
  by_cases h4 : s.geocode_matched = true <;>
  by_cases h5 : s.delivery_history_success ≤ 0 <;>
  by_cases h6 : 0 < s.suggestions.length <;>
  by_cases h7 : pyContains s.current_step "retry_attempted" = true <;>
    simp [route_after_delivery, h1, h2, h3, h4, h5, h6, h7,
      Bool.not_eq_true, ← List.length_pos]

theorem graphTrace_count_retry_le_one
    (f : Node → AgentState → AgentState) :
    ∀ (fuel : Nat) (n : Node) (s : AgentState),
      (graphTrace f fuel n s).count Node.retry_with_suggestions ≤ 1 := by
  intro fuel
  induction fuel with
  | zero => intro n s; simp [graphTrace]
  | succ fuel ih =>
    intro n s
    rw [graphTrace]
    rcases hn : nextNode n (f n s) with _ | n2
    · by_cases h : n = Node.retry_with_suggestions <;>
        simp [List.count_cons, h]
    · by_cases h : n = Node.retry_with_suggestions
      · subst h
        simp only [nextNode, Option.some.injEq] at hn
        subst hn
        simp [List.count_cons, graphTrace_calculate_verdict]
      · simp only [List.count_cons]
        have := ih n2 (f n s)
        simp [h]
        omega

theorem graphRun_retry_mem
    (f : Node → AgentState → AgentState) :
    ∀ (fuel : Nat) (n : Node) (s : AgentState),
      Node.retry_with_suggestions ∈ graphTrace f fuel n s →
      n = Node.retry_with_suggestions ∨
        ∃ s2 : AgentState,
          (Node.check_delivery, s2) ∈ graphRun f fuel n s ∧
          route_after_delivery s2 = "retry" := by
  intro fuel
  induction fuel with
  | zero => intro n s h; simp [graphTrace] at h
  | succ fuel ih =>
    intro n s h
    rw [graphTrace] at h
    rcases hn : nextNode n (f n s) with _ | n2
    · rw [hn] at h
      simp only [List.mem_singleton] at h
      exact Or.inl h.symm
    · rw [hn] at h
      simp only [graphRun, hn]
      rcases List.mem_cons.mp h with h1 | h2
      · exact Or.inl h1.symm
      · rcases ih n2 (f n s) h2 with h3 | ⟨s2, hmem, hroute⟩
        · subst h3
          right
          cases n with
          | init => simp [nextNode] at hn
          | validate_country =>
            rw [nextNode] at hn
            split at hn <;> simp at hn
          | parse_address => simp [nextNode] at hn
          | apply_typo_corrections => simp [nextNode] at hn
          | validate_psgc_api => simp [nextNode] at hn
          | match_psgc =>
            rw [nextNode] at hn
            split at hn <;> simp at hn
          | geocode =>
            rw [nextNode] at hn
            split at hn <;> simp at hn
          | refine_with_geocode => simp [nextNode] at hn
          | check_delivery =>
            rw [nextNode] at hn
            split at hn
            · exact ⟨f Node.check_delivery s, List.mem_cons_self _ _,
                by assumption⟩
            · simp at hn
          | retry_with_suggestions => simp [nextNode] at hn
          | calculate_verdict => simp [nextNode] at hn
        · exact Or.inr ⟨s2, List.mem_cons_of_mem _ hmem, hroute⟩

/-- C4: in every run of the orchestration graph, whatever the node bodies
do, the retry step appears at most once in the execution trace; the node
trace is the projection of the state-recording run; and the retry step
appears in a run only if that same run visited the delivery-check node and
the recorded state there - the state the delivery router was evaluated
on - routed to "retry", which requires confidence below 50, none of the
four positive signals, and at least one recorded suggestion. -/
theorem retry_at_most_once_and_only_when_warranted :
    (∀ (f : Node → AgentState → AgentState) (fuel : Nat) (s : AgentState),
      (graphTrace f fuel Node.init s).count
        Node.retry_with_suggestions ≤ 1) ∧
    (∀ (f : Node → AgentState → AgentState) (fuel : Nat) (n : Node)
        (s : AgentState),
      graphTrace f fuel n s = (graphRun f fuel n s).map Prod.fst) ∧
    (∀ (f : Node → AgentState → AgentState) (fuel : Nat) (s : AgentState),
      Node.retry_with_suggestions ∈ graphTrace f fuel Node.init s →
      ∃ s2 : AgentState,
        (Node.check_delivery, s2) ∈ graphRun f fuel Node.init s ∧
        route_after_delivery s2 = "retry" ∧
        s2.confidence < 50 ∧ s2.structure_ok = false ∧
        s2.psgc_matched = false ∧ s2.geocode_matched = false ∧
        s2.delivery_history_success ≤ 0 ∧ s2.suggestions ≠ []) := by
  refine ⟨?_, ?_, ?_⟩
  · intro f fuel s
    exact graphTrace_count_retry_le_one f fuel Node.init s
  · intro f fuel n s
    exact graphTrace_eq_graphRun_map f fuel n s
  · intro f fuel s h
    rcases graphRun_retry_mem f fuel Node.init s h with h1 | ⟨s2, hmem, h2⟩
    · exact absurd h1 (by simp)
    · rcases (route_after_delivery_retry_iff s2).mp h2 with
        ⟨hc, hs, hp, hg, hd, hsug, _⟩
      exact ⟨s2, hmem, h2, hc, hs, hp, hg, hd, hsug⟩

/-- A concrete state that triggers the retry route (low confidence, no
positive signals, one suggestion, Philippine country). -/
def demoRetryState : AgentState :=
  { validation_id := "id-2", original_address := "addr", clean_address := "addr",
    country := "PH", structure_ok := false, psgc_matched := false,
    geocode_matched := false, psgc_api_validated := true,
    delivery_history_success := 0, province := "", city := "", barangay := "",
    street_address := "", postal_code := "", province_code := "",
    city_code := "", barangay_code := "", latitude := 0, longitude := 0,
    place_id := "", geocode_formatted_address := "", geocode_city := "",
    geocode_barangay := "", geocode_postal := "", region_id := "",
    province_id := "", city_id := "", barangay_id := "",
    formatted_address := "", confidence := 0, reasons := [],
    suggestions := ["try a province variation"], delivery_history := none,
    current_step := "initialize", error := none }

/-- Closed witness for C4: identity node bodies on `demoRetryState` reach
the retry node, and the theorem produces the delivery-routing state of that
very run. -/
theorem retry_at_most_once_and_only_when_warranted_witness :
    ∃ s2 : AgentState,
      (Node.check_delivery, s2) ∈
        graphRun (fun _ s => s) 15 Node.init demoRetryState ∧
      route_after_delivery s2 = "retry" ∧
      s2.confidence < 50 ∧ s2.structure_ok = false ∧
      s2.psgc_matched = false ∧ s2.geocode_matched = false ∧
      s2.delivery_history_success ≤ 0 ∧ s2.suggestions ≠ [] :=
  retry_at_most_once_and_only_when_warranted.2.2 (fun _ s => s) 15
    demoRetryState (by decide)

/-! ## The sequential pipeline of `AddressValidator.validate_address`
(utils/validator.py)

Collaborator results are oracle inputs whose shapes mirror the collaborator
wrappers in the repository.  `get_address_country`
(core/gmaps_integration.py) only ever returns an international ACCEPT (of
which the validator reads the `country` field alone), a PH verdict, or a
NOT_PH verdict with an optional country; `get_geocode` returns a failure
reason or a premise-level hit. -/

def pyTruthy (o : Option String) : Bool :=
  !((o.getD "") == "")

def sVal (o : Option String) : String :=
  o.getD ""

def pyLowerStr (s : String) : String :=
  ⟨pyLower s.data⟩

def pyLowerStripStr (s : String) : String :=
  ⟨pyStrip (pyLower s.data)⟩

structure ParsedAddress where
  province : Option String
  city : Option String
  barangay : Option String
  street_address : Option String
  postal_code : Option String
deriving DecidableEq

inductive CountryResult where
  | acceptIntl (country : String)
  | ph
  | notPh (country : Option String)
deriving DecidableEq

inductive GeoResult where
  | invalid (reason : String)
  | valid (streetAddress barangay postalCode city province country
      formattedAddress : String) (latitude longitude : ℚ) (place_id : String)
deriving DecidableEq

/-! ## `SmartTypoHandler.apply_corrections` (utils/smart_typo_handler.py)

The `correct_province` / `correct_city` / `correct_barangay` outcomes are
driven by the external RapidFuzz / phonetics libraries and the PSGC data, so
they enter as oracle values; the list-of-suggestions construction is the
source's: at most one entry, recorded only when a city correction
significantly shortened the name. -/

structure TypoOracle where
  provCorrection : Option String
  cityCorrection : Option String
  cityCodeFound : Bool
  barCorrection : Option String
deriving DecidableEq

def cityStandardizedMsg (original corrected : String) : String :=
  "City name standardized from '" ++ original ++ "' to official name '" ++
    corrected ++ "'"

def typoProvinceStep (t : TypoOracle) (p : ParsedAddress) : ParsedAddress :=
  if pyTruthy p.province then
    match t.provCorrection with
    | some corrected =>
      if corrected ≠ "" ∧ corrected ≠ sVal p.province then
        { p with province := some corrected }
      else p
    | none => p
  else p

def typoCityStep (t : TypoOracle) (p1 : ParsedAddress) :
    ParsedAddress × List String :=
  if pyTruthy p1.city then
    match t.cityCorrection with
    | some corrected =>
      if corrected ≠ "" ∧ corrected ≠ sVal p1.city then
        ({ p1 with city := some corrected },
         if corrected.length + 5 < (sVal p1.city).length then
           [cityStandardizedMsg (sVal p1.city) corrected]
         else [])
      else (p1, [])
    | none => (p1, [])
  else (p1, [])

def typoBarangayStep (t : TypoOracle) (p2 : ParsedAddress) : ParsedAddress :=
  if pyTruthy p2.barangay ∧ t.cityCodeFound then
    match t.barCorrection with
    | some corrected =>
      if corrected ≠ "" ∧ corrected ≠ sVal p2.barangay then
        { p2 with barangay := some corrected }
      else p2
    | none => p2
  else p2

def smart_apply_corrections (t : TypoOracle) (p : ParsedAddress) :
    ParsedAddress × List String :=
  let cityStep := typoCityStep t (typoProvinceStep t p)
  (typoBarangayStep t cityStep.1, cityStep.2)

/-! ## `apply_common_corrections` (utils/typo_corrections.py), the fallback
when the smart handler is unavailable.  The city dictionary's two
Parañaque values carry the mojibake spelling present in the source file. -/

def BARANGAY_TYPOS : List (String × String) :=
  [("licenaa", "licena"), ("licensaa", "licena"),
   ("queebiawan", "quebiauan"), ("quebiawan", "quebiauan"),
   ("hippodromo", "hippodromo"), ("hipodromo", "hippodromo"),
   ("cordoba", "cordova"), ("palao", "pala-o"), ("pala o", "pala-o"),
   ("pulungbulu", "pulung bulu"), ("pulung-bulu", "pulung bulu")]

def CITY_TYPOS : List (String × String) :=
  [("calocan", "caloocan"), ("caloocan", "caloocan"),
   ("mandaluyong", "mandaluyong"), ("muntinlupa", "muntinlupa"),
   ("muntilupa", "muntinlupa"), ("paraaque", "paraÃ±aque"),
   ("paranaque", "paraÃ±aque"), ("cordoba", "cordova"),
   ("san fernando", "city of san fernando"),
   ("cagayan de oro", "city of cagayan de oro"),
   ("lapu lapu", "city of lapu-lapu"), ("lapu-lapu", "city of lapu-lapu")]

def PROVINCE_TYPOS : List (String × String) :=
  [("la union", "la union"), ("launion", "la union"),
   ("compostela valley", "davao de oro"),
   ("davao del sur", "davao del sur"), ("davaodelsur", "davao del sur"),
   ("misamis oriental", "misamis oriental"),
   ("misamis occidental", "misamis occidental"),
   ("agusan del norte", "agusan del norte"),
   ("agusan del sur", "agusan del sur")]

def correct_typo (dict : List (String × String)) (text : String) : String :=
  if text = "" then text
  else
    match dict.lookup (pyLowerStripStr text) with
    | some corrected => corrected
    | none => text

def apply_common_corrections (p : ParsedAddress) : ParsedAddress :=
  let p :=
    if pyTruthy p.province then
      { p with province := some (correct_typo PROVINCE_TYPOS (sVal p.province)) }
    else p
  let p :=
    if pyTruthy p.city then
      { p with city := some (correct_typo CITY_TYPOS (sVal p.city)) }
    else p
  if pyTruthy p.barangay then
    { p with barangay := some (correct_typo BARANGAY_TYPOS (sVal p.barangay)) }
  else p

/-! ## `_apply_aliases` (utils/validator.py) with the alias tables of
utils/config.py. -/

def PROVINCE_ALIASES : List (String × String) :=
  [("compostela valley", "davao de oro"), ("ncr", "metro manila"),
   ("national capital region", "metro manila")]

def CITY_ABBREVIATIONS : List (String × String) :=
  [("qc", "quezon city"), ("q.c.", "quezon city"), ("q.c", "quezon city"),
   ("manila", "city of manila"), ("makati", "city of makati"),
   ("pasig", "city of pasig"), ("taguig", "city of taguig"),
   ("bgc", "taguig"), ("paranaque", "city of paranaque"),
   ("las pinas", "city of las pinas"), ("muntinlupa", "city of muntinlupa")]

def apply_aliases (p : ParsedAddress) : ParsedAddress :=
  let p :=
    if pyTruthy p.province then
      match PROVINCE_ALIASES.lookup (pyLowerStr (sVal p.province)) with
      | some aliasName => { p with province := some (pyTitle aliasName) }
      | none => p
    else p
  if pyTruthy p.city then
    match CITY_ABBREVIATIONS.lookup (pyLowerStr (sVal p.city)) with
    | some aliasName => { p with city := some (pyTitle aliasName) }
    | none => p
  else p

/-! ## Oracles and per-request mutable aggregate of validator.py -/

structure PipelineOracles where
  gmapsAvailable : Bool
  countryResult : CountryResult
  parsed : ParsedAddress
  smartTypoAvailable : Bool
  typo : TypoOracle
  searchProvince : String → Option Location
  searchCity : String → Option String → Option Location
  searchBarangay : String → Option String → Option Location
  dbAvailable : Bool
  getProvinceDetails : String → Option (String × String)
  getCityDetails : String → Option String
  philatlasAvailable : Bool
  philatlasPostal : String → String → String → Option String
  geocodeResult : String → GeoResult
  getDeliveryHistory : String → List DeliveryRecord

/-- `_init_temp_data` plus the keys later helpers add via `dict.update`
(`psgcApiValidated` defaults to true through `dict.get`, the code keys to
the falsy empty string). -/
structure TempData where
  structureOk : Bool
  psgcMatched : Bool
  geocodeMatched : Bool
  philatlasValidated : Bool
  deliveryHistorySuccess : Int
  confidence : ℚ
  province : String
  city : String
  barangay : String
  streetAddress : String
  postalCode : String
  country : String
  latitude : ℚ
  longitude : ℚ
  place_id : String
  formattedAddress : String
  geocodeFormattedAddress : String
  region_id : String
  province_id : String
  city_id : String
  barangay_id : String
  reason : List String
  suggestion : List String
  deliveryHistory : DeliveryHistoryResponse
  psgcApiValidated : Bool
  province_code : String
  city_code : String
  barangay_code : String

def emptyDeliveryHistory : DeliveryHistoryResponse :=
  ⟨⟨"", "", "", ""⟩, ⟨"", "", "", ""⟩⟩

def initTempData : TempData :=
  { structureOk := false, psgcMatched := false, geocodeMatched := false,
    philatlasValidated := true, deliveryHistorySuccess := 0, confidence := 0,
    province := "", city := "", barangay := "", streetAddress := "",
    postalCode := "", country := "PH", latitude := 0, longitude := 0,
    place_id := "", formattedAddress := "", geocodeFormattedAddress := "",
    region_id := "", province_id := "", city_id := "", barangay_id := "",
    reason := [], suggestion := [], deliveryHistory := emptyDeliveryHistory,
    psgcApiValidated := true, province_code := "", city_code := "",
    barangay_code := "" }

/-! ## `_validate_with_psgc_api` (utils/validator.py) -/

def provinceNotFoundMsg (name : String) : String :=
  "Province '" ++ name ++ "' not found in PSGC API"

def cityNotFoundMsg (name : String) : String :=
  "City '" ++ name ++ "' not found in PSGC API"

def barangayNotFoundMsg (name : String) : String :=
  "Barangay '" ++ name ++ "' not found in PSGC API"

/-- The dict `_validate_with_psgc_api` returns; the `reason` key is present
only when some component failed validation. -/
structure PsgcApiResult where
  province : String
  city : String
  barangay : String
  streetAddress : String
  postalCode : String
  psgcApiValidated : Bool
  province_code : String
  city_code : String
  barangay_code : String
  reason : Option (List String)

def validate_with_psgc_api (o : PipelineOracles) (parsed : ParsedAddress) :
    PsgcApiResult :=
  let provStep :
      String × String × Option String × List String × Bool :=
    if pyTruthy parsed.province then
      match o.searchProvince (sVal parsed.province) with
      | some m => (pyTitle m.name, m.code, some m.code, [], true)
      | none =>
        (pyTitle (sVal parsed.province), "", none,
         [provinceNotFoundMsg (sVal parsed.province)], false)
    else ("", "", none, [], true)
  let provCodeOpt := provStep.2.2.1
  let cityStep :
      String × String × Option String × Option String × List String × Bool :=
    if pyTruthy parsed.city then
      match o.searchCity (sVal parsed.city) provCodeOpt with
      | some m =>
        let newPostal : Option String :=
          if sVal parsed.postal_code = "" ∧ (m.zip_code.getD "") ≠ "" then
            some (m.zip_code.getD "")
          else none
        (pyTitle m.name, m.code, some m.code, newPostal, [], true)
      | none =>
        (pyTitle (sVal parsed.city), "", none, none,
         [cityNotFoundMsg (sVal parsed.city)], false)
    else ("", "", none, none, [], true)
  let cityCodeOpt := cityStep.2.2.1
  let barStep : String × String × List String × Bool :=
    if pyTruthy parsed.barangay then
      match o.searchBarangay (sVal parsed.barangay) cityCodeOpt with
      | some m => (pyTitle m.name, m.code, [], true)
      | none =>
        (pyTitle (sVal parsed.barangay), "",
         [barangayNotFoundMsg (sVal parsed.barangay)], false)
    else ("", "", [], true)
  let msgs := provStep.2.2.2.1 ++ cityStep.2.2.2.2.1 ++ barStep.2.2.1
  { province := provStep.1,
    city := cityStep.1,
    barangay := barStep.1,
    streetAddress := sVal parsed.street_address,
    postalCode := (cityStep.2.2.2.1).getD (sVal parsed.postal_code),
    psgcApiValidated := provStep.2.2.2.2 && cityStep.2.2.2.2.2 && barStep.2.2.2,
    province_code := provStep.2.1,
    city_code := cityStep.2.1,
    barangay_code := barStep.2.1,
    reason := if msgs = [] then none else some msgs }

def applyPsgcApi (t : TempData) (r : PsgcApiResult) : TempData :=
  { t with
    province := r.province, city := r.city, barangay := r.barangay,
    streetAddress := r.streetAddress, postalCode := r.postalCode,
    psgcApiValidated := r.psgcApiValidated,
    province_code := r.province_code, city_code := r.city_code,
    barangay_code := r.barangay_code,
    reason := r.reason.getD t.reason }

/-! ## `_match_psgc_database` (utils/validator.py)

The source calls `db.get_barangay_details(barangay, city)` with two
positional arguments while `core/database_client.get_barangay_details`
accepts one, so the branch for a barangay lacking a PSGC code raises
`TypeError`; the model returns `Except.error` there and `validate_address`
propagates it (the source has no enclosing try). -/

def optTruthy (x : Option String) : Bool :=
  !((x.getD "") == "")

def philatlasBarangayMsg (postal barangay : String) : String :=
  "Postal code " ++ postal ++ " suggested from PhilAtlas for barangay " ++
    barangay

structure MatchResult where
  region_id : Option String
  province_id : Option String
  city_id : Option String
  barangay_id : Option String
  postalCode : Option String
  suggestion : Option (List String)
  psgcMatched : Bool

def match_psgc_database (o : PipelineOracles) (t : TempData) :
    Except Unit MatchResult :=
  let provPair : Option (String × String) :=
    if t.province_code ≠ "" then
      some (⟨t.province_code.data.take 2 ++ "0000000".data⟩, t.province_code)
    else if t.province ≠ "" then o.getProvinceDetails t.province
    else none
  let cityId : Option String :=
    if t.city_code ≠ "" then some t.city_code
    else if t.city ≠ "" then o.getCityDetails t.city
    else none
  if t.barangay_code = "" ∧ t.barangay ≠ "" then Except.error ()
  else
    let barId : Option String :=
      if t.barangay_code ≠ "" then some t.barangay_code else none
    let philPart : Option (String × String) :=
      if t.postalCode = "" ∧ t.city ≠ "" ∧ t.barangay ≠ "" ∧
          o.philatlasAvailable then
        match o.philatlasPostal t.barangay t.city t.province with
        | some pp => if pp ≠ "" then some (pp, t.barangay) else none
        | none => none
      else none
    let region_id := provPair.map Prod.fst
    let province_id := provPair.map Prod.snd
    let psgc_codes_found := optTruthy region_id && optTruthy province_id &&
      optTruthy cityId && optTruthy barId
    Except.ok
      { region_id := region_id, province_id := province_id,
        city_id := cityId, barangay_id := barId,
        postalCode := philPart.map Prod.fst,
        suggestion := philPart.map (fun pb => [philatlasBarangayMsg pb.1 pb.2]),
        psgcMatched := psgc_codes_found && t.psgcApiValidated }

def applyMatch (t : TempData) (m : MatchResult) : TempData :=
  { t with
    region_id := m.region_id.getD t.region_id,
    province_id := m.province_id.getD t.province_id,
    city_id := m.city_id.getD t.city_id,
    barangay_id := m.barangay_id.getD t.barangay_id,
    postalCode := m.postalCode.getD t.postalCode,
    suggestion := m.suggestion.getD t.suggestion,
    psgcMatched := m.psgcMatched }

/-! ## `_geocode_address` (utils/validator.py) -/

structure GeoUpdate where
  reason : Option (List String)
  geocodeMatched : Option Bool
  latitude : Option ℚ
  longitude : Option ℚ
  place_id : Option String
  geocodeFormattedAddress : Option String
  city : Option String
  barangay : Option String
  postalCode : Option String
  structureOk : Option Bool
  streetAddress : Option String
  province : Option String
  country : Option String
  formattedAddress : Option String

def emptyGeoUpdate : GeoUpdate :=
  ⟨none, none, none, none, none, none, none, none, none, none, none, none,
   none, none⟩

def vp_geocode_address (o : PipelineOracles) (t : TempData)
    (original_address : String) : GeoUpdate :=
  let address :=
    if t.formattedAddress ≠ "" then t.formattedAddress else original_address
  match o.geocodeResult address with
  | .invalid reason =>
    { emptyGeoUpdate with
      reason := some [reason], geocodeMatched := some false }
  | .valid st bar pc city prov ctry fmt lat lng pid =>
    if t.country = "PH" then
      { emptyGeoUpdate with
        latitude := some lat, longitude := some lng, place_id := some pid,
        geocodeFormattedAddress := some fmt, geocodeMatched := some true,
        city := if t.city = "" ∧ city ≠ "" then some city else none,
        barangay := if t.barangay = "" ∧ bar ≠ "" then some bar else none,
        postalCode :=
          if t.postalCode = "" ∧ pc ≠ "" then some pc else none }
    else
      { emptyGeoUpdate with
        structureOk := some true, streetAddress := some st, city := some city, province := some prov,
        postalCode := some pc, country := some ctry,
        formattedAddress := some fmt, latitude := some lat,
        longitude := some lng, place_id := some pid,
        geocodeMatched := some true }

def applyGeo (t : TempData) (g : GeoUpdate) : TempData :=
  { t with
    reason := g.reason.getD t.reason,
    geocodeMatched := g.geocodeMatched.getD t.geocodeMatched,
    latitude := g.latitude.getD t.latitude,
    longitude := g.longitude.getD t.longitude,
    place_id := g.place_id.getD t.place_id,
    geocodeFormattedAddress :=
      g.geocodeFormattedAddress.getD t.geocodeFormattedAddress,
    city := g.city.getD t.city,
    barangay := g.barangay.getD t.barangay,
    postalCode := g.postalCode.getD t.postalCode,
    structureOk := g.structureOk.getD t.structureOk,
    streetAddress := g.streetAddress.getD t.streetAddress,
    province := g.province.getD t.province,
    country := g.country.getD t.country,
    formattedAddress := g.formattedAddress.getD t.formattedAddress }

/-! ## `_format_ph_address` (utils/validator.py) -/

def cleanStreetWordsAux (street_words barangay_lower : List (List Char)) :
    List (List Char) → List (List Char)
  | [] => []
  | w :: rest =>
    if pyLower w ∈ barangay_lower then
      let remaining := street_words.drop (street_words.indexOf w)
      if remaining.all (fun x => decide (pyLower x ∈ barangay_lower)) then []
      else w :: cleanStreetWordsAux street_words barangay_lower rest
    else w :: cleanStreetWordsAux street_words barangay_lower rest

def joinWords (ws : List (List Char)) : List Char :=
  List.intercalate [' '] ws

def format_ph_address (t : TempData) : String × String :=
  let street_address := t.streetAddress
  let barangay := t.barangay
  let street_address :=
    if street_address ≠ "" ∧ barangay ≠ "" then
      let street_words := pySplitWs street_address.data
      let barangay_words := pySplitWs (pyReplace ['-'] [' '] barangay.data)
      let barangay_lower := barangay_words.map pyLower
      (⟨pyStrip (joinWords
        (cleanStreetWordsAux street_words barangay_lower street_words))⟩ :
        String)
    else street_address
  let components : List String :=
    (if street_address ≠ "" then [street_address] else []) ++
    (if barangay ≠ "" then [barangay] else []) ++
    (if t.city ≠ "" then [t.city] else []) ++
    (if t.province ≠ "" then [t.province] else []) ++
    (if t.postalCode ≠ "" then [t.postalCode] else []) ++ ["PH"]
  (⟨pyStrip (collapseWs (String.intercalate " " components).data)⟩,
   street_address)

/-! ## Verdict projection and `_build_response` (utils/validator.py)

The response's top-level formatted address reads
`temp_data.get("formattedAddress", ...)`; the key always exists (it is
initialized to the empty string), so the geocode fallback default of the
`get` never fires. -/

def verdict_of (t : TempData) : VerdictResponse :=
  calculate_verdict t.structureOk t.psgcMatched t.geocodeMatched
    t.deliveryHistorySuccess t.reason

def vp_build_response (validation_id original_input : String) (t : TempData)
    (verdict : VerdictResponse) : EnhancedResponse :=
  { id := validation_id, input := original_input,
    formattedAddress := t.formattedAddress,
    verdict := verdict,
    structureData := ⟨t.streetAddress, t.barangay, t.city, t.province,
      t.country, t.postalCode, t.formattedAddress⟩,
    psgc := ⟨t.region_id, t.province_id, t.city_id, t.barangay_id⟩,
    geocode := ⟨t.latitude, t.longitude, t.place_id,
      t.geocodeFormattedAddress⟩,
    deliveryHistory := t.deliveryHistory,
    reason := t.reason,
    suggestions := t.suggestion }

/-! ## `validate_address` (utils/validator.py)

The returned value also carries the list of pipeline stages that executed,
so that short-circuiting claims are expressible.  `Except.error` marks the
paths on which the Python code raises (the two-argument
`get_barangay_details` call). -/

inductive StepTag where
  | countryCheck
  | parseStep
  | typoStep
  | psgcApiStep
  | matchDbStep
  | geocodeStep
  | rematchDbStep
  | deliveryStep
  | scoreStep
deriving DecidableEq

def nonPhAppearsMsg (c : String) : String :=
  "We only validate Philippine addresses. The provided address appears to be from "
    ++ c ++ "."

def nonPhUnknownMsg : String :=
  "We only validate Philippine addresses. The provided address does not appear to be from the Philippines."

def philatlasForMsg (postal barangay : String) : String :=
  "Postal code " ++ postal ++ " suggested from PhilAtlas for " ++ barangay

/-- The formatted-address / structureOk block that validator.py repeats
after PSGC matching and after the geocode re-match. -/
def maybeFormat (t : TempData) : TempData :=
  if t.streetAddress ≠ "" ∧ t.barangay ≠ "" ∧ t.city ≠ "" ∧
      t.province ≠ "" then
    let fp := format_ph_address t
    { t with
      formattedAddress := fp.1, streetAddress := fp.2,
      structureOk := true }
  else t

/-- The typo pass of step 2: the smart handler (extending the suggestions)
when importable, the basic dictionary corrections otherwise. -/
def typoPhase (o : PipelineOracles) (t : TempData) :
    ParsedAddress × TempData :=
  if o.smartTypoAvailable then
    let pr := smart_apply_corrections o.typo o.parsed
    (pr.1, { t with suggestion := t.suggestion ++ pr.2 })
  else (apply_common_corrections o.parsed, t)

/-- Alias application followed by PSGC API validation (step 3). -/
def resolvePhase (o : PipelineOracles) (pt : ParsedAddress × TempData) :
    TempData :=
  applyPsgcApi pt.2 (validate_with_psgc_api o (apply_aliases pt.1))

/-- PSGC database matching (step 4), run only when the database client is
available. -/
def dbPhase (o : PipelineOracles) (t : TempData) : Except Unit TempData :=
  if o.dbAvailable then (match_psgc_database o t).map (applyMatch t)
  else Except.ok t

/-- Steps 2–4 of `validate_address`: parse, typo pass, alias pass, PSGC API
validation and database matching, then the formatted-address check. -/
def resolveStage (o : PipelineOracles) (t : TempData) (steps0 : List StepTag) :
    Except Unit (TempData × List StepTag) :=
  if t.country = "PH" ∧ t.structureOk = false then
    match dbPhase o (resolvePhase o (typoPhase o t)) with
    | .error e => .error e
    | .ok t2 =>
      .ok (maybeFormat t2, steps0 ++ [StepTag.parseStep, StepTag.typoStep,
        StepTag.psgcApiStep] ++
        (if o.dbAvailable then [StepTag.matchDbStep] else []))
  else .ok (t, steps0)

/-- The post-geocode PhilAtlas postal-code retry of step 5. -/
def philPhase (o : PipelineOracles) (t3 : TempData) : TempData :=
  if t3.postalCode = "" ∧ t3.barangay ≠ "" ∧ t3.city ≠ "" ∧
      o.philatlasAvailable then
    match o.philatlasPostal t3.barangay t3.city t3.province with
    | some pp =>
      if pp ≠ "" then
        { t3 with
          postalCode := pp,
          suggestion := t3.suggestion ++ [philatlasForMsg pp t3.barangay] }
      else t3
    | none => t3
  else t3

/-- Step 5 of `validate_address`: geocoding, the PSGC re-match when the
geocode filled components, and the PhilAtlas postal-code retry. -/
def geocodeStage (o : PipelineOracles) (incoming : String) (t : TempData)
    (steps : List StepTag) : Except Unit (TempData × List StepTag) :=
  if (t.country = "PH" ∨ t.country = "NOT_PH") ∧ o.gmapsAvailable then
    let g := vp_geocode_address o t incoming
    let t2 := applyGeo t g
    if o.dbAvailable ∧ (optTruthy g.city || optTruthy g.barangay) = true then
      match match_psgc_database o t2 with
      | .error e => .error e
      | .ok m =>
        .ok (maybeFormat (philPhase o (applyMatch t2 m)),
          steps ++ [StepTag.geocodeStep, StepTag.rematchDbStep])
    else .ok (t2, steps ++ [StepTag.geocodeStep])
  else .ok (t, steps)

/-- Step 6 of `validate_address`: the delivery-history lookup. -/
def deliveryStage (o : PipelineOracles) (incoming : String) (t : TempData) :
    TempData :=
  if o.dbAvailable then
    let dh := check_delivery_history (o.getDeliveryHistory incoming)
      (if t.formattedAddress ≠ "" then o.getDeliveryHistory t.formattedAddress
       else [])
    { t with deliveryHistorySuccess := dh.1, deliveryHistory := dh.2 }
  else t

def validateMainFlow (o : PipelineOracles)
    (incoming original_input validation_id : String) (t : TempData)
    (steps0 : List StepTag) :
    Except Unit (EnhancedResponse × List StepTag) :=
  match resolveStage o t steps0 with
  | .error e => .error e
  | .ok (t, steps) =>
    match geocodeStage o incoming t steps with
    | .error e => .error e
    | .ok (t, steps) =>
      let t := deliveryStage o incoming t
      let steps := steps ++
        (if o.dbAvailable then [StepTag.deliveryStep] else []) ++
        [StepTag.scoreStep]
      Except.ok
        (vp_build_response validation_id original_input t (verdict_of t),
         steps)

def validate_address (o : PipelineOracles)
    (address_text validation_id : String) :
    Except Unit (EnhancedResponse × List StepTag) :=
  let incoming : String := ⟨pyReplace [','] [] (pyStrip address_text.data)⟩
  let t0 := initTempData
  if o.gmapsAvailable then
    match o.countryResult with
    | .acceptIntl detected =>
      let t := { t0 with
        country := detected,
        reason := t0.reason ++ [nonPhAppearsMsg detected],
        structureOk := false, geocodeMatched := false, psgcMatched := false }
      Except.ok (vp_build_response validation_id address_text t (verdict_of t),
        [StepTag.countryCheck, StepTag.scoreStep])
    | .notPh copt =>
      let detected := copt.getD ""
      let t :=
        if detected ≠ "" then
          { t0 with
            country := detected,
            reason := t0.reason ++ [nonPhAppearsMsg detected],
            structureOk := false, geocodeMatched := false,
            psgcMatched := false }
        else
          { t0 with
            country := "Unknown",
            reason := t0.reason ++ [nonPhUnknownMsg],
            structureOk := false, geocodeMatched := false,
            psgcMatched := false }
      Except.ok (vp_build_response validation_id address_text t (verdict_of t),
        [StepTag.countryCheck, StepTag.scoreStep])
    | .ph =>
      validateMainFlow o incoming address_text validation_id
        { t0 with country := "PH" } [StepTag.countryCheck]
  else
    validateMainFlow o incoming address_text validation_id
      { t0 with country := "PH" } []

theorem infix_append_left {p a : List Char} (b : List Char)
    (h : p <:+: a) : p <:+: a ++ b :=
  h.trans ((List.prefix_append a b).isInfix)

theorem contains_nonPhAppearsMsg (c : String) :
    pyContains (nonPhAppearsMsg c) "only validate Philippine addresses"
      = true := by
  unfold pyContains nonPhAppearsMsg
  apply decide_eq_true
  have hdata :
      ("We only validate Philippine addresses. The provided address appears to be from "
          ++ c ++ ".").data =
        "We only validate Philippine addresses. The provided address appears to be from ".data
          ++ (c.data ++ ".".data) := by
    rw [String.data_append, String.data_append, List.append_assoc]
  rw [hdata]
  exact infix_append_left _ (by decide)

theorem contains_nonPhUnknownMsg :
    pyContains nonPhUnknownMsg "only validate Philippine addresses"
      = true := by
  decide

/-! ## The country-check rejection path of the LangGraph agent
(utils/validator_agent.py: the initial state of `validate_address`,
`_initialize_state`, `_validate_country`, `_calculate_verdict`) -/

/-- The initial `ValidationState` dict built by the agent's
`validate_address`; the validation id is the generated UUID, supplied here
by the caller. -/
def agent_initial_state (validation_id address_text : String) : AgentState :=
  { validation_id := validation_id, original_address := address_text,
    clean_address := ⟨pyReplace ",".data [] (pyStrip address_text.data)⟩,
    country := "PH", structure_ok := false, psgc_matched := false,
    geocode_matched := false, psgc_api_validated := true,
    delivery_history_success := 0, province := "", city := "", barangay := "",
    street_address := "", postal_code := "", province_code := "",
    city_code := "", barangay_code := "", latitude := 0, longitude := 0,
    place_id := "", geocode_formatted_address := "", geocode_city := "",
    geocode_barangay := "", geocode_postal := "", region_id := "",
    province_id := "", city_id := "", barangay_id := "",
    formatted_address := "", confidence := 0, reasons := [],
    suggestions := [], delivery_history := none,
    current_step := "initialize", error := none }

/-- `_initialize_state`: only records the step marker. -/
def agent_init_state (s : AgentState) : AgentState :=
  { s with current_step := "initialize" }

/-- `_validate_country`: the country-check node body.  The collaborator
result has the same three shapes as in validator.py; with no Google Maps
client the country is pinned to PH.  The in-place `reasons.append` is
modeled as a single append: the LangGraph `add` reducer can only repeat
entries, which none of the proved properties (field values, membership
scans, the seen-set dedup) depend on. -/
def agent_validate_country (gmapsAvailable : Bool) (cr : CountryResult)
    (s0 : AgentState) : AgentState :=
  let s := { s0 with current_step := "validate_country" }
  match gmapsAvailable with
  | false => { s with country := "PH" }
  | true =>
    match cr with
    | .acceptIntl c =>
      { s with
        country := c,
        reasons := s.reasons ++ [nonPhAppearsMsg c],
        structure_ok := false, geocode_matched := false,
        psgc_matched := false }
    | .ph => { s with country := "PH" }
    | .notPh copt =>
      if copt.getD "" ≠ "" then
        { s with
          country := copt.getD "",
          reasons := s.reasons ++ [nonPhAppearsMsg (copt.getD "")],
          structure_ok := false, geocode_matched := false,
          psgc_matched := false }
      else
        { s with
          country := "Unknown",
          reasons := s.reasons ++ [nonPhUnknownMsg],
          structure_ok := false, geocode_matched := false,
          psgc_matched := false }

/-- The agent's `_calculate_verdict`: records the step marker and the
confidence; the verdict flags and isValid are assembled later by
`_build_response`. -/
def agent_calculate_verdict (s : AgentState) : AgentState :=
  { s with
    current_step := "calculate_verdict",
    confidence := calcConfidence s.structure_ok s.psgc_matched
      s.geocode_matched s.delivery_history_success
      (has_psgc_api_errors s.reasons) }

/-- Node bodies for the runs the short-circuit theorem describes: the three
nodes on the rejection path carry the source translations above; every
other body is arbitrary (the theorem shows those nodes are never
visited). -/
def agentBodies (gmapsAvailable : Bool) (cr : CountryResult)
    (other : Node → AgentState → AgentState) :
    Node → AgentState → AgentState :=
  fun n s =>
    match n with
    | .init => agent_init_state s
    | .validate_country => agent_validate_country gmapsAvailable cr s
    | .calculate_verdict => agent_calculate_verdict s
    | _ => other n s

/-- A confident non-Philippine detection by the country check: an
international ACCEPT for a country other than PH, or a NOT_PH verdict whose
reported country is not PH. -/
def nonPhDetection (cr : CountryResult) : Prop :=
  (∃ c, cr = CountryResult.acceptIntl c ∧ c ≠ "PH") ∨
  (∃ copt, cr = CountryResult.notPh copt ∧ copt.getD "" ≠ "PH")

theorem graphTrace_succ_some (f : Node → AgentState → AgentState)
    (fuel : Nat) (n n2 : Node) (s : AgentState)
    (h : nextNode n (f n s) = some n2) :
    graphTrace f (fuel + 1) n s = n :: graphTrace f fuel n2 (f n s) := by
  rw [graphTrace, h]

theorem graphTrace_succ_none (f : Node → AgentState → AgentState)
    (fuel : Nat) (n : Node) (s : AgentState)
    (h : nextNode n (f n s) = none) :
    graphTrace f (fuel + 1) n s = [n] := by
  rw [graphTrace, h]

theorem graphRun_succ_some (f : Node → AgentState → AgentState)
    (fuel : Nat) (n n2 : Node) (s : AgentState)
    (h : nextNode n (f n s) = some n2) :
    graphRun f (fuel + 1) n s = (n, f n s) :: graphRun f fuel n2 (f n s) := by
  rw [graphRun, h]

theorem graphRun_succ_none (f : Node → AgentState → AgentState)
    (fuel : Nat) (n : Node) (s : AgentState)
    (h : nextNode n (f n s) = none) :
    graphRun f (fuel + 1) n s = [(n, f n s)] := by
  rw [graphRun, h]

theorem agent_validate_country_rejects (cr : CountryResult) (s : AgentState)
    (hdet : nonPhDetection cr) :
    (agent_validate_country true cr s).country ≠ "PH" ∧
    (agent_validate_country true cr s).structure_ok = false ∧
    (agent_validate_country true cr s).psgc_matched = false ∧
    (agent_validate_country true cr s).geocode_matched = false ∧
    ∃ msg, (agent_validate_country true cr s).reasons = s.reasons ++ [msg] ∧
      pyContains msg "only validate Philippine addresses" = true := by
  rcases hdet with ⟨c, rfl, hc⟩ | ⟨copt, rfl, hc⟩
  · exact ⟨hc, rfl, rfl, rfl, nonPhAppearsMsg c, rfl,
      contains_nonPhAppearsMsg c⟩
  · unfold agent_validate_country
    dsimp only
    by_cases he : copt.getD "" = ""
    · rw [if_neg (not_not_intro he)]
      refine ⟨?_, rfl, rfl, rfl, nonPhUnknownMsg, rfl,
        contains_nonPhUnknownMsg⟩
      show ("Unknown" : String) ≠ "PH"
      decide
    · rw [if_pos he]
      exact ⟨hc, rfl, rfl, rfl, nonPhAppearsMsg (copt.getD ""), rfl,
        contains_nonPhAppearsMsg (copt.getD "")⟩

theorem agent_short_circuit_run (other : Node → AgentState → AgentState)
    (cr : CountryResult) (fuel : Nat) (s0 : AgentState)
    (hfuel : 3 ≤ fuel) (hdet : nonPhDetection cr) :
    graphTrace (agentBodies true cr other) fuel Node.init s0 =
      [Node.init, Node.validate_country, Node.calculate_verdict] ∧
    graphRun (agentBodies true cr other) fuel Node.init s0 =
      [(Node.init, agent_init_state s0),
       (Node.validate_country,
         agent_validate_country true cr (agent_init_state s0)),
       (Node.calculate_verdict,
         agent_calculate_verdict
           (agent_validate_country true cr (agent_init_state s0)))] := by
  obtain ⟨k, rfl⟩ : ∃ k, fuel = k + 1 + 1 + 1 := ⟨fuel - 3, by omega⟩
  have hc := (agent_validate_country_rejects cr (agent_init_state s0) hdet).1
  have hroute : route_after_country_check
      (agent_validate_country true cr (agent_init_state s0)) = "end" := by
    simp only [route_after_country_check]
    rw [if_neg hc]
  have b1 : agentBodies true cr other Node.init s0 = agent_init_state s0 :=
    rfl
  have b2 : agentBodies true cr other Node.validate_country
      (agent_init_state s0) =
      agent_validate_country true cr (agent_init_state s0) := rfl
  have b3 : agentBodies true cr other Node.calculate_verdict
      (agent_validate_country true cr (agent_init_state s0)) =
      agent_calculate_verdict
        (agent_validate_country true cr (agent_init_state s0)) := rfl
  have h1 : nextNode Node.init (agentBodies true cr other Node.init s0) =
      some Node.validate_country := rfl
  have h2 : nextNode Node.validate_country
      (agentBodies true cr other Node.validate_country
        (agent_init_state s0)) = some Node.calculate_verdict := by
    rw [b2]
    simp only [nextNode]
    rw [hroute]
    rfl
  have h3 : nextNode Node.calculate_verdict
      (agentBodies true cr other Node.calculate_verdict
        (agent_validate_country true cr (agent_init_state s0))) = none := rfl
  constructor
  · rw [graphTrace_succ_some _ (k + 1 + 1) _ _ _ h1, b1,
      graphTrace_succ_some _ (k + 1) _ _ _ h2, b2,
      graphTrace_succ_none _ k _ _ h3]
  · rw [graphRun_succ_some _ (k + 1 + 1) _ _ _ h1, b1,
      graphRun_succ_some _ (k + 1) _ _ _ h2, b2,
      graphRun_succ_none _ k _ _ h3, b3]

theorem agent_build_response_non_ph (st : AgentState)
    (h : ∃ r ∈ st.reasons,
      pyContains r "only validate Philippine addresses" = true) :
    (agent_build_response st).verdict.isValid = false := by
  obtain ⟨r, hr, hcont⟩ := h
  have hnp : is_non_ph_rejection (dedupKeepFirst st.reasons) = true :=
    List.any_eq_true.mpr ⟨r, (mem_dedupKeepFirst st.reasons r).mpr hr, hcont⟩
  show calcIsValid st.structure_ok st.psgc_matched st.geocode_matched
      st.delivery_history_success
      (is_non_ph_rejection (dedupKeepFirst st.reasons))
      (has_psgc_api_errors (dedupKeepFirst st.reasons)) = false
  rw [hnp]
  rfl

/-- The rejected temp data the country-check early returns build. -/
def rejectedTempData (country msg : String) : TempData :=
  { initTempData with
    country := country, reason := initTempData.reason ++ [msg],
    structureOk := false, geocodeMatched := false, psgcMatched := false }

/-- The early return of `validate_address` for a rejected country. -/
def rejectedResponse (validation_id address_text country msg : String) :
    EnhancedResponse :=
  vp_build_response validation_id address_text
    (rejectedTempData country msg)
    (verdict_of (rejectedTempData country msg))

theorem rejected_response_props (validation_id address_text country msg :
    String)
    (hmsg : pyContains msg "only validate Philippine addresses" = true) :
    (rejectedResponse validation_id address_text country msg).verdict.isValid
        = false ∧
    (rejectedResponse validation_id address_text country
        msg).verdict.structureOk = false ∧
    (rejectedResponse validation_id address_text country
        msg).verdict.psgcMatched = false ∧
    (rejectedResponse validation_id address_text country
        msg).verdict.geocodeMatched = false ∧
    (∃ r ∈ (rejectedResponse validation_id address_text country msg).reason,
      pyContains r "only validate Philippine addresses" = true) := by
  refine ⟨?_, by rfl, by rfl, by rfl, ⟨msg, by
    simp [rejectedResponse, vp_build_response, rejectedTempData,
      initTempData], hmsg⟩⟩
  simp [rejectedResponse, vp_build_response, verdict_of, calculate_verdict,
    calcIsValid, rejectedTempData, initTempData, is_non_ph_rejection, hmsg]

/-- C5: whenever the country check confidently detects a non-Philippine
country (an international ACCEPT from the validation API, or a NOT_PH
verdict), both implementations short-circuit.  (1) validator.py's
`validate_address` records the domestic-only rejection reason, forces all
three match flags false, runs only the country-check and scoring stages —
never resolution, database matching, geocoding or the delivery-history
lookup — and returns a Verdict with isValid = false.  For the LangGraph
orchestrator: (2) the `_validate_country` node body forces the three match
flags false, appends the rejection reason, and `_route_after_country_check`
routes "end"; (3) whatever the bodies of the skipped nodes do, the whole
run visits exactly the init, country-check and scoring nodes — never
parsing, typo/PSGC resolution, geocoding, refinement, delivery or retry;
(4) `_build_response` reports isValid = false for any state carrying the
rejection reason; and (5) end to end, on the initial state of a request the
response built from the run's final state has isValid = false, all flags
false, and the rejection reason recorded. -/
theorem non_ph_country_short_circuits :
    (∀ (o : PipelineOracles) (address_text validation_id : String),
      o.gmapsAvailable = true →
      ((∃ c, o.countryResult = CountryResult.acceptIntl c) ∨
       (∃ copt, o.countryResult = CountryResult.notPh copt)) →
      ∃ resp : EnhancedResponse,
        validate_address o address_text validation_id =
          Except.ok (resp, [StepTag.countryCheck, StepTag.scoreStep]) ∧
        resp.verdict.isValid = false ∧
        resp.verdict.structureOk = false ∧
        resp.verdict.psgcMatched = false ∧
        resp.verdict.geocodeMatched = false ∧
        (∃ r ∈ resp.reason,
          pyContains r "only validate Philippine addresses" = true) ∧
        StepTag.psgcApiStep ∉ [StepTag.countryCheck, StepTag.scoreStep] ∧
        StepTag.matchDbStep ∉ [StepTag.countryCheck, StepTag.scoreStep] ∧
        StepTag.geocodeStep ∉ [StepTag.countryCheck, StepTag.scoreStep] ∧
        StepTag.deliveryStep ∉ [StepTag.countryCheck, StepTag.scoreStep]) ∧
    (∀ (cr : CountryResult) (s : AgentState), nonPhDetection cr →
      (agent_validate_country true cr s).structure_ok = false ∧
      (agent_validate_country true cr s).psgc_matched = false ∧
      (agent_validate_country true cr s).geocode_matched = false ∧
      (∃ r ∈ (agent_validate_country true cr s).reasons,
        pyContains r "only validate Philippine addresses" = true) ∧
      route_after_country_check (agent_validate_country true cr s) =
        "end") ∧
    (∀ (other : Node → AgentState → AgentState) (cr : CountryResult)
        (fuel : Nat) (s0 : AgentState), 3 ≤ fuel → nonPhDetection cr →
      graphTrace (agentBodies true cr other) fuel Node.init s0 =
        [Node.init, Node.validate_country, Node.calculate_verdict] ∧
      graphRun (agentBodies true cr other) fuel Node.init s0 =
        [(Node.init, agent_init_state s0),
         (Node.validate_country,
           agent_validate_country true cr (agent_init_state s0)),
         (Node.calculate_verdict,
           agent_calculate_verdict
             (agent_validate_country true cr (agent_init_state s0)))]) ∧
    (∀ st : AgentState,
      (∃ r ∈ st.reasons,
        pyContains r "only validate Philippine addresses" = true) →
      (agent_build_response st).verdict.isValid = false) ∧
    (∀ (cr : CountryResult) (validation_id address_text : String),
      nonPhDetection cr →
      (agent_build_response (agent_calculate_verdict
          (agent_validate_country true cr (agent_init_state
            (agent_initial_state validation_id
              address_text))))).verdict.isValid = false ∧
      (agent_build_response (agent_calculate_verdict
          (agent_validate_country true cr (agent_init_state
            (agent_initial_state validation_id
              address_text))))).verdict.structureOk = false ∧
      (agent_build_response (agent_calculate_verdict
          (agent_validate_country true cr (agent_init_state
            (agent_initial_state validation_id
              address_text))))).verdict.psgcMatched = false ∧
      (agent_build_response (agent_calculate_verdict
          (agent_validate_country true cr (agent_init_state
            (agent_initial_state validation_id
              address_text))))).verdict.geocodeMatched = false ∧
      (∃ r ∈ (agent_build_response (agent_calculate_verdict
          (agent_validate_country true cr (agent_init_state
            (agent_initial_state validation_id
              address_text))))).reason,
        pyContains r "only validate Philippine addresses" = true)) := by
  refine ⟨?_, ?_, ?_, ?_, ?_⟩
  · intro o address_text validation_id hg hcase
    rcases hcase with ⟨c, hc⟩ | ⟨copt, hc⟩
    · obtain ⟨h1, h2, h3, h4, h5⟩ := rejected_response_props validation_id
        address_text c (nonPhAppearsMsg c) (contains_nonPhAppearsMsg c)
      refine ⟨rejectedResponse validation_id address_text c
        (nonPhAppearsMsg c),
        ?_, h1, h2, h3, h4, h5, by decide, by decide, by decide, by decide⟩
      simp [validate_address, hg, hc, rejectedResponse, rejectedTempData]
    · by_cases hdet : copt.getD "" = ""
      · obtain ⟨h1, h2, h3, h4, h5⟩ := rejected_response_props validation_id
          address_text "Unknown" nonPhUnknownMsg contains_nonPhUnknownMsg
        refine ⟨rejectedResponse validation_id address_text "Unknown"
          nonPhUnknownMsg,
          ?_, h1, h2, h3, h4, h5, by decide, by decide, by decide,
          by decide⟩
        simp [validate_address, hg, hc, hdet, rejectedResponse,
          rejectedTempData]
      · obtain ⟨h1, h2, h3, h4, h5⟩ := rejected_response_props validation_id
          address_text (copt.getD "") (nonPhAppearsMsg (copt.getD ""))
          (contains_nonPhAppearsMsg (copt.getD ""))
        refine ⟨rejectedResponse validation_id address_text (copt.getD "")
          (nonPhAppearsMsg (copt.getD "")),
          ?_, h1, h2, h3, h4, h5, by decide, by decide, by decide,
          by decide⟩
        simp [validate_address, hg, hc, hdet, rejectedResponse,
          rejectedTempData]
  · intro cr s hdet
    obtain ⟨hcn, hso, hpm, hgm, msg, hreq, hcont⟩ :=
      agent_validate_country_rejects cr s hdet
    refine ⟨hso, hpm, hgm, ⟨msg, ?_, hcont⟩, ?_⟩
    · rw [hreq]
      exact List.mem_append_right _ (List.mem_singleton.mpr rfl)
    · simp only [route_after_country_check]
      rw [if_neg hcn]
  · intro other cr fuel s0 hfuel hdet
    exact agent_short_circuit_run other cr fuel s0 hfuel hdet
  · intro st h
    exact agent_build_response_non_ph st h
  · intro cr validation_id address_text hdet
    obtain ⟨hcn, hso, hpm, hgm, msg, hreq, hcont⟩ :=
      agent_validate_country_rejects cr
        (agent_init_state (agent_initial_state validation_id address_text))
        hdet
    have hmem : msg ∈ (agent_calculate_verdict
        (agent_validate_country true cr (agent_init_state
          (agent_initial_state validation_id address_text)))).reasons := by
      show msg ∈ (agent_validate_country true cr (agent_init_state
        (agent_initial_state validation_id address_text))).reasons
      rw [hreq]
      exact List.mem_append_right _ (List.mem_singleton.mpr rfl)
    refine ⟨agent_build_response_non_ph _ ⟨msg, hmem, hcont⟩,
      hso, hpm, hgm, msg, ?_, hcont⟩
    show msg ∈ dedupKeepFirst (agent_calculate_verdict
        (agent_validate_country true cr (agent_init_state
          (agent_initial_state validation_id address_text)))).reasons
    rw [mem_dedupKeepFirst]
    exact hmem

/-- An oracle family whose country check detects a United States address. -/
def demoNonPhOracles : PipelineOracles :=
  { gmapsAvailable := true, countryResult := CountryResult.acceptIntl "US",
    parsed := ⟨none, none, none, none, none⟩, smartTypoAvailable := false,
    typo := ⟨none, none, false, none⟩,
    searchProvince := fun _ => none, searchCity := fun _ _ => none,
    searchBarangay := fun _ _ => none, dbAvailable := false,
    getProvinceDetails := fun _ => none, getCityDetails := fun _ => none,
    philatlasAvailable := false, philatlasPostal := fun _ _ _ => none,
    geocodeResult := fun _ => GeoResult.invalid "Geocoding failed",
    getDeliveryHistory := fun _ => [] }

/-- An agent state already carrying the domestic-only rejection reason. -/
def demoRejectedAgentState : AgentState :=
  { demoAgentState with reasons := [nonPhUnknownMsg] }

/-- Closed witness for C5 at a concrete non-Philippine detection, for the
sequential pipeline and for every agent-side conjunct. -/
theorem non_ph_country_short_circuits_witness :
    (∃ resp : EnhancedResponse,
      validate_address demoNonPhOracles "1 Main St Springfield" "vid" =
        Except.ok (resp, [StepTag.countryCheck, StepTag.scoreStep]) ∧
      resp.verdict.isValid = false ∧
      resp.verdict.structureOk = false ∧
      resp.verdict.psgcMatched = false ∧
      resp.verdict.geocodeMatched = false ∧
      (∃ r ∈ resp.reason,
        pyContains r "only validate Philippine addresses" = true) ∧
      StepTag.psgcApiStep ∉ [StepTag.countryCheck, StepTag.scoreStep] ∧
      StepTag.matchDbStep ∉ [StepTag.countryCheck, StepTag.scoreStep] ∧
      StepTag.geocodeStep ∉ [StepTag.countryCheck, StepTag.scoreStep] ∧
      StepTag.deliveryStep ∉ [StepTag.countryCheck, StepTag.scoreStep]) ∧
    ((agent_validate_country true (CountryResult.acceptIntl "US")
        demoAgentState).structure_ok = false ∧
     (agent_validate_country true (CountryResult.acceptIntl "US")
        demoAgentState).psgc_matched = false ∧
     (agent_validate_country true (CountryResult.acceptIntl "US")
        demoAgentState).geocode_matched = false ∧
     (∃ r ∈ (agent_validate_country true (CountryResult.acceptIntl "US")
        demoAgentState).reasons,
       pyContains r "only validate Philippine addresses" = true) ∧
     route_after_country_check (agent_validate_country true
       (CountryResult.acceptIntl "US") demoAgentState) = "end") ∧
    (graphTrace (agentBodies true (CountryResult.acceptIntl "US")
        (fun _ s => s)) 3 Node.init demoAgentState =
      [Node.init, Node.validate_country, Node.calculate_verdict] ∧
     graphRun (agentBodies true (CountryResult.acceptIntl "US")
        (fun _ s => s)) 3 Node.init demoAgentState =
      [(Node.init, agent_init_state demoAgentState),
       (Node.validate_country,
         agent_validate_country true (CountryResult.acceptIntl "US")
           (agent_init_state demoAgentState)),
       (Node.calculate_verdict,
         agent_calculate_verdict
           (agent_validate_country true (CountryResult.acceptIntl "US")
             (agent_init_state demoAgentState)))]) ∧
    ((agent_build_response demoRejectedAgentState).verdict.isValid =
      false) ∧
    ((agent_build_response (agent_calculate_verdict
        (agent_validate_country true (CountryResult.acceptIntl "US")
          (agent_init_state
            (agent_initial_state "vid" "addr"))))).verdict.isValid =
        false ∧
     (agent_build_response (agent_calculate_verdict
        (agent_validate_country true (CountryResult.acceptIntl "US")
          (agent_init_state
            (agent_initial_state "vid" "addr"))))).verdict.structureOk =
        false ∧
     (agent_build_response (agent_calculate_verdict
        (agent_validate_country true (CountryResult.acceptIntl "US")
          (agent_init_state
            (agent_initial_state "vid" "addr"))))).verdict.psgcMatched =
        false ∧
     (agent_build_response (agent_calculate_verdict
        (agent_validate_country true (CountryResult.acceptIntl "US")
          (agent_init_state
            (agent_initial_state "vid" "addr"))))).verdict.geocodeMatched =
        false ∧
     (∃ r ∈ (agent_build_response (agent_calculate_verdict
        (agent_validate_country true (CountryResult.acceptIntl "US")
          (agent_init_state
            (agent_initial_state "vid" "addr"))))).reason,
       pyContains r "only validate Philippine addresses" = true)) :=
  ⟨non_ph_country_short_circuits.1 demoNonPhOracles "1 Main St Springfield"
      "vid" rfl (Or.inl ⟨"US", rfl⟩),
   non_ph_country_short_circuits.2.1 (CountryResult.acceptIntl "US")
      demoAgentState (Or.inl ⟨"US", rfl, by decide⟩),
   non_ph_country_short_circuits.2.2.1 (fun _ s => s)
      (CountryResult.acceptIntl "US") 3 demoAgentState (by decide)
      (Or.inl ⟨"US", rfl, by decide⟩),
   non_ph_country_short_circuits.2.2.2.1 demoRejectedAgentState
      ⟨nonPhUnknownMsg, List.mem_singleton.mpr rfl,
        contains_nonPhUnknownMsg⟩,
   non_ph_country_short_circuits.2.2.2.2 (CountryResult.acceptIntl "US")
      "vid" "addr" (Or.inl ⟨"US", rfl, by decide⟩)⟩

/-! ## No-duplicate invariants for the final response (C9)

The reason and suggestion lists of validator.py are wholesale-replaced or
extended with strings from disjoint fixed-tail families; the lemmas below
record the distinctness of the family heads and the shapes each stage can
produce. -/

theorem provinceMsg_ne_cityMsg (p c : String) :
    provinceNotFoundMsg p ≠ cityNotFoundMsg c := by
  intro h
  have h2 := congrArg (fun s => s.data.head?) h
  simp only [provinceNotFoundMsg, cityNotFoundMsg] at h2
  injection h2 with h3
  exact absurd h3 (by decide)

theorem provinceMsg_ne_barangayMsg (p b : String) :
    provinceNotFoundMsg p ≠ barangayNotFoundMsg b := by
  intro h
  have h2 := congrArg (fun s => s.data.head?) h
  simp only [provinceNotFoundMsg, barangayNotFoundMsg] at h2
  injection h2 with h3
  exact absurd h3 (by decide)

theorem cityMsg_ne_barangayMsg (c b : String) :
    cityNotFoundMsg c ≠ barangayNotFoundMsg b := by
  intro h
  have h2 := congrArg (fun s => s.data.head?) h
  simp only [cityNotFoundMsg, barangayNotFoundMsg] at h2
  injection h2 with h3
  exact absurd h3 (by decide)

theorem cityStandardizedMsg_ne_philatlasForMsg (x y pp b : String) :
    cityStandardizedMsg x y ≠ philatlasForMsg pp b := by
  intro h
  have h2 := congrArg (fun s => s.data.head?) h
  simp only [cityStandardizedMsg, philatlasForMsg] at h2
  injection h2 with h3
  exact absurd h3 (by decide)

/-- The typo pass records at most one suggestion, always of the
city-standardized form. -/
theorem typoCityStep_shape (ty : TypoOracle) (p1 : ParsedAddress) :
    (typoCityStep ty p1).2 = [] ∨
    ∃ x y, (typoCityStep ty p1).2 = [cityStandardizedMsg x y] := by
  unfold typoCityStep
  split
  · rcases ty.cityCorrection with _ | corrected
    · simp
    · dsimp only
      split
      · split
        · exact Or.inr ⟨_, _, rfl⟩
        · simp
      · simp
  · simp

theorem smart_suggestions_shape (ty : TypoOracle) (p : ParsedAddress) :
    (smart_apply_corrections ty p).2 = [] ∨
    ∃ x y, (smart_apply_corrections ty p).2 = [cityStandardizedMsg x y] :=
  typoCityStep_shape ty (typoProvinceStep ty p)

/-- The reason list `_validate_with_psgc_api` returns (empty when the key
is absent) has no duplicates. -/
theorem psgcApi_reason_nodup (o : PipelineOracles) (parsed : ParsedAddress) :
    ((validate_with_psgc_api o parsed).reason.getD []).Nodup := by
  unfold validate_with_psgc_api
  dsimp only
  split
  · rcases o.searchProvince (sVal parsed.province) with _ | pm <;> dsimp only
    · split
      · rcases o.searchCity (sVal parsed.city) none with _ | cm <;> dsimp only
        · split
          · rcases o.searchBarangay (sVal parsed.barangay) none with _ | bm <;>
              simp [provinceMsg_ne_cityMsg, provinceMsg_ne_barangayMsg,
                cityMsg_ne_barangayMsg]
          · simp [provinceMsg_ne_cityMsg]
        · split
          · rcases o.searchBarangay (sVal parsed.barangay) (some cm.code) with
              _ | bm <;>
              simp [provinceMsg_ne_barangayMsg]
          · simp
      · split
        · rcases o.searchBarangay (sVal parsed.barangay) none with _ | bm <;>
            simp [provinceMsg_ne_barangayMsg]
        · simp
    · split
      · rcases o.searchCity (sVal parsed.city) (some pm.code) with _ | cm <;>
          dsimp only
        · split
          · rcases o.searchBarangay (sVal parsed.barangay) none with _ | bm <;>
              simp [cityMsg_ne_barangayMsg]
          · simp
        · split
          · rcases o.searchBarangay (sVal parsed.barangay) (some cm.code) with
              _ | bm <;> simp
          · simp
      · split
        · rcases o.searchBarangay (sVal parsed.barangay) none with _ | bm <;>
            simp
        · simp
  · split
    · rcases o.searchCity (sVal parsed.city) none with _ | cm <;> dsimp only
      · split
        · rcases o.searchBarangay (sVal parsed.barangay) none with _ | bm <;>
            simp [cityMsg_ne_barangayMsg]
        · simp
      · split
        · rcases o.searchBarangay (sVal parsed.barangay) (some cm.code) with
            _ | bm <;> simp
        · simp
    · split
      · rcases o.searchBarangay (sVal parsed.barangay) none with _ | bm <;>
          simp
      · simp

/-- The shapes the suggestion list can take before the post-geocode
PhilAtlas retry: empty, one typo-standardization entry, or one PhilAtlas
entry recorded together with a non-empty postal code. -/
def SuggShape (t : TempData) : Prop :=
  t.suggestion = [] ∨
  (∃ x y, t.suggestion = [cityStandardizedMsg x y]) ∨
  (∃ pp b, t.suggestion = [philatlasBarangayMsg pp b] ∧ t.postalCode ≠ "")

theorem suggShape_nodup {t : TempData} (h : SuggShape t) :
    t.suggestion.Nodup := by
  rcases h with h | ⟨x, y, h⟩ | ⟨pp, b, h, _⟩ <;> simp [h]

theorem match_psgc_database_shape (o : PipelineOracles) (t : TempData)
    (m : MatchResult) (h : match_psgc_database o t = Except.ok m) :
    (m.suggestion = none ∧ m.postalCode = none) ∨
    (∃ pp b, pp ≠ "" ∧ m.suggestion = some [philatlasBarangayMsg pp b] ∧
      m.postalCode = some pp) := by
  unfold match_psgc_database at h
  dsimp only at h
  by_cases hcrash : t.barangay_code = "" ∧ t.barangay ≠ ""
  · rw [if_pos hcrash] at h
    exact absurd h (by simp)
  · rw [if_neg hcrash] at h
    rw [Except.ok.injEq] at h
    subst h
    dsimp only
    split
    · split
      · rename_i pp heq
        split
        · rename_i hpp
          exact Or.inr ⟨pp, t.barangay, hpp, rfl, rfl⟩
        · exact Or.inl ⟨rfl, rfl⟩
      · exact Or.inl ⟨rfl, rfl⟩
    · exact Or.inl ⟨rfl, rfl⟩

theorem vp_geocode_shape (o : PipelineOracles) (t : TempData) (a : String)
    (hc : t.country = "PH") :
    ((vp_geocode_address o t a).reason = none ∨
      ∃ r, (vp_geocode_address o t a).reason = some [r]) ∧
    ((vp_geocode_address o t a).postalCode = none ∨ t.postalCode = "") ∧
    (vp_geocode_address o t a).country = none := by
  unfold vp_geocode_address
  dsimp only
  split
  · exact ⟨Or.inr ⟨_, rfl⟩, Or.inl rfl, rfl⟩
  · rw [if_pos hc]
    refine ⟨Or.inl rfl, ?_, rfl⟩
    dsimp only
    split
    · rename_i hcond
      exact Or.inr hcond.1
    · exact Or.inl rfl

theorem typoPhase_post (o : PipelineOracles) (t : TempData)
    (hs : t.suggestion = []) :
    ((typoPhase o t).2).reason = t.reason ∧
    (((typoPhase o t).2).suggestion = [] ∨
      ∃ x y, ((typoPhase o t).2).suggestion = [cityStandardizedMsg x y]) ∧
    ((typoPhase o t).2).country = t.country := by
  unfold typoPhase
  split
  · refine ⟨rfl, ?_, rfl⟩
    rcases smart_suggestions_shape o.typo o.parsed with h | ⟨x, y, h⟩
    · exact Or.inl (by simp [hs, h])
    · exact Or.inr ⟨x, y, by simp [hs, h]⟩
  · exact ⟨rfl, Or.inl hs, rfl⟩

theorem resolvePhase_post (o : PipelineOracles)
    (pt : ParsedAddress × TempData) (hr : pt.2.reason.Nodup) :
    (resolvePhase o pt).reason.Nodup ∧
    (resolvePhase o pt).suggestion = pt.2.suggestion ∧
    (resolvePhase o pt).country = pt.2.country := by
  refine ⟨?_, rfl, rfl⟩
  show ((validate_with_psgc_api o (apply_aliases pt.1)).reason.getD
    pt.2.reason).Nodup
  rcases hro : (validate_with_psgc_api o (apply_aliases pt.1)).reason with
    _ | l
  · simpa using hr
  · have := psgcApi_reason_nodup o (apply_aliases pt.1)
    rw [hro] at this
    simpa using this

theorem dbPhase_post (o : PipelineOracles) (t t2 : TempData)
    (h : dbPhase o t = Except.ok t2) :
    t2.reason = t.reason ∧ t2.country = t.country ∧
    ((t2.suggestion = t.suggestion ∧ t2.postalCode = t.postalCode) ∨
      (∃ pp b, pp ≠ "" ∧ t2.suggestion = [philatlasBarangayMsg pp b] ∧
        t2.postalCode = pp)) := by
  unfold dbPhase at h
  split at h
  · rcases hdb : match_psgc_database o t with _ | m
    · rw [hdb] at h
      exact absurd h (by simp [Except.map])
    · rw [hdb] at h
      simp only [Except.map, Except.ok.injEq] at h
      subst h
      rcases match_psgc_database_shape o t m hdb with ⟨h1, h2⟩ |
        ⟨pp, b, hpp, h1, h2⟩
      · exact ⟨rfl, rfl, Or.inl ⟨by simp [applyMatch, h1],
          by simp [applyMatch, h2]⟩⟩
      · exact ⟨rfl, rfl, Or.inr ⟨pp, b, hpp, by simp [applyMatch, h1],
          by simp [applyMatch, h2]⟩⟩
  · rw [Except.ok.injEq] at h
    subst h
    exact ⟨rfl, rfl, Or.inl ⟨rfl, rfl⟩⟩

theorem maybeFormat_preserves (t : TempData) :
    (maybeFormat t).reason = t.reason ∧
    (maybeFormat t).suggestion = t.suggestion ∧
    (maybeFormat t).postalCode = t.postalCode ∧
    (maybeFormat t).country = t.country := by
  unfold maybeFormat
  split <;> exact ⟨rfl, rfl, rfl, rfl⟩

theorem philPhase_post (o : PipelineOracles) (t3 : TempData)
    (hs : SuggShape t3) :
    (philPhase o t3).suggestion.Nodup ∧
    (philPhase o t3).reason = t3.reason := by
  unfold philPhase
  split
  · rename_i hcond
    rcases hcond with ⟨hpostal, _⟩
    have hs01 : t3.suggestion = [] ∨
        ∃ x y, t3.suggestion = [cityStandardizedMsg x y] := by
      rcases hs with h | ⟨x, y, h⟩ | ⟨pp, b, h, hne⟩
      · exact Or.inl h
      · exact Or.inr ⟨x, y, h⟩
      · exact absurd hpostal hne
    split
    · rename_i pp
      split
      · refine ⟨?_, rfl⟩
        rcases hs01 with h | ⟨x, y, h⟩
        · simp [h]
        · simp [h, cityStandardizedMsg_ne_philatlasForMsg]
      · exact ⟨by rcases hs01 with h | ⟨x, y, h⟩ <;> simp [h], rfl⟩
    · exact ⟨by rcases hs01 with h | ⟨x, y, h⟩ <;> simp [h], rfl⟩
  · exact ⟨suggShape_nodup hs, rfl⟩

theorem resolveStage_post (o : PipelineOracles) (t : TempData)
    (steps0 : List StepTag) (hr : t.reason = []) (hs : t.suggestion = []) :
    ∀ t2 steps, resolveStage o t steps0 = Except.ok (t2, steps) →
      t2.reason.Nodup ∧ SuggShape t2 ∧ t2.country = t.country := by
  intro t2 steps h
  unfold resolveStage at h
  split at h
  · rcases hdb : dbPhase o (resolvePhase o (typoPhase o t)) with _ | tdb
    · rw [hdb] at h
      exact absurd h (by simp)
    · rw [hdb] at h
      simp only [Except.ok.injEq, Prod.mk.injEq] at h
      obtain ⟨h1, _⟩ := h
      subst h1
      obtain ⟨htr, hts, htc⟩ := typoPhase_post o t hs
      obtain ⟨hrr, hrs, hrc⟩ := resolvePhase_post o (typoPhase o t)
        (by rw [htr, hr]; exact List.nodup_nil)
      obtain ⟨hdr, hdc, hdsugg⟩ := dbPhase_post o _ _ hdb
      obtain ⟨hm1, hm2, hm3, hm4⟩ := maybeFormat_preserves tdb
      refine ⟨by rw [hm1, hdr]; exact hrr, ?_, by
        rw [hm4, hdc, hrc, htc]⟩
      rcases hdsugg with ⟨hsg, hpc⟩ | ⟨pp, b, hpp, hsg, hpc⟩
      · rw [SuggShape, hm2, hsg, hrs]
        rcases hts with h | ⟨x, y, h⟩
        · exact Or.inl h
        · exact Or.inr (Or.inl ⟨x, y, h⟩)
      · exact Or.inr (Or.inr ⟨pp, b, by rw [hm2, hsg],
          by rw [hm3, hpc]; exact hpp⟩)
  · simp only [Except.ok.injEq, Prod.mk.injEq] at h
    obtain ⟨h1, _⟩ := h
    subst h1
    exact ⟨by rw [hr]; exact List.nodup_nil, Or.inl hs, rfl⟩

theorem applyMatch_suggShape (o : PipelineOracles) (t : TempData)
    (m : MatchResult) (hdb : match_psgc_database o t = Except.ok m)
    (hs : SuggShape t) : SuggShape (applyMatch t m) := by
  rcases match_psgc_database_shape o t m hdb with ⟨h1, h2⟩ |
    ⟨pp, b, hpp, h1, h2⟩
  · rcases hs with h | ⟨x, y, h⟩ | ⟨pp, b, h, hne⟩
    · exact Or.inl (by simp [applyMatch, h1, h])
    · exact Or.inr (Or.inl ⟨x, y, by simp [applyMatch, h1, h]⟩)
    · refine Or.inr (Or.inr ⟨pp, b, by simp [applyMatch, h1, h], ?_⟩)
      simpa [applyMatch, h2] using hne
  · refine Or.inr (Or.inr ⟨pp, b, by simp [applyMatch, h1], ?_⟩)
    simpa [applyMatch, h2] using hpp

theorem geocodeStage_post (o : PipelineOracles) (incoming : String)
    (t : TempData) (steps : List StepTag) (hr : t.reason.Nodup)
    (hs : SuggShape t) (hc : t.country = "PH") :
    ∀ t2 steps2, geocodeStage o incoming t steps = Except.ok (t2, steps2) →
      t2.reason.Nodup ∧ t2.suggestion.Nodup := by
  intro t2 steps2 h
  unfold geocodeStage at h
  obtain ⟨hgr, hgp, hgc⟩ := vp_geocode_shape o t incoming hc
  have happlied :
      (applyGeo t (vp_geocode_address o t incoming)).reason.Nodup ∧
      SuggShape (applyGeo t (vp_geocode_address o t incoming)) := by
    constructor
    · show ((vp_geocode_address o t incoming).reason.getD t.reason).Nodup
      rcases hgr with h1 | ⟨r, h1⟩
      · simpa [h1] using hr
      · simp [h1]
    · rcases hs with h1 | ⟨x, y, h1⟩ | ⟨pp, b, h1, hne⟩
      · exact Or.inl h1
      · exact Or.inr (Or.inl ⟨x, y, h1⟩)
      · refine Or.inr (Or.inr ⟨pp, b, h1, ?_⟩)
        show ((vp_geocode_address o t incoming).postalCode.getD
          t.postalCode) ≠ ""
        rcases hgp with h2 | h2
        · simpa [h2] using hne
        · exact absurd h2 hne
  split at h
  · simp only at h
    split at h
    · rcases hdb : match_psgc_database o
          (applyGeo t (vp_geocode_address o t incoming)) with _ | m
      · rw [hdb] at h
        exact absurd h (by simp)
      · rw [hdb] at h
        simp only [Except.ok.injEq, Prod.mk.injEq] at h
        obtain ⟨h1, _⟩ := h
        subst h1
        have hshape := applyMatch_suggShape o _ m hdb happlied.2
        obtain ⟨hpn, hpr⟩ := philPhase_post o
          (applyMatch (applyGeo t (vp_geocode_address o t incoming)) m)
          hshape
        obtain ⟨hm1, hm2, _, _⟩ := maybeFormat_preserves
          (philPhase o
            (applyMatch (applyGeo t (vp_geocode_address o t incoming)) m))
        constructor
        · rw [hm1, hpr]
          exact happlied.1
        · rw [hm2]
          exact hpn
    · simp only [Except.ok.injEq, Prod.mk.injEq] at h
      obtain ⟨h1, _⟩ := h
      subst h1
      exact ⟨happlied.1, suggShape_nodup happlied.2⟩
  · simp only [Except.ok.injEq, Prod.mk.injEq] at h
    obtain ⟨h1, _⟩ := h
    subst h1
    exact ⟨hr, suggShape_nodup hs⟩

theorem deliveryStage_preserves (o : PipelineOracles) (incoming : String)
    (t : TempData) :
    (deliveryStage o incoming t).reason = t.reason ∧
    (deliveryStage o incoming t).suggestion = t.suggestion := by
  unfold deliveryStage
  split <;> exact ⟨rfl, rfl⟩

theorem mainFlow_nodup (o : PipelineOracles)
    (incoming original_input validation_id : String) (t : TempData)
    (steps0 : List StepTag) (hr : t.reason = []) (hs : t.suggestion = [])
    (hc : t.country = "PH") :
    ∀ resp steps,
      validateMainFlow o incoming original_input validation_id t steps0 =
        Except.ok (resp, steps) →
      resp.reason.Nodup ∧ resp.suggestions.Nodup := by
  intro resp steps h
  unfold validateMainFlow at h
  rcases hres : resolveStage o t steps0 with e | p1
  · rw [hres] at h
    exact absurd h (by simp)
  · rw [hres] at h
    obtain ⟨t1, steps1⟩ := p1
    dsimp only at h
    obtain ⟨h1r, h1s, h1c⟩ := resolveStage_post o t steps0 hr hs t1 steps1
      hres
    rcases hgeo : geocodeStage o incoming t1 steps1 with e | p2
    · rw [hgeo] at h
      exact absurd h (by simp)
    · rw [hgeo] at h
      obtain ⟨t2, steps2⟩ := p2
      obtain ⟨h2r, h2s⟩ := geocodeStage_post o incoming t1 steps1 h1r h1s
        (by rw [h1c, hc]) t2 steps2 hgeo
      simp only [Except.ok.injEq, Prod.mk.injEq] at h
      obtain ⟨h3, _⟩ := h
      subst h3
      obtain ⟨hd1, hd2⟩ := deliveryStage_preserves o incoming t2
      constructor
      · show (deliveryStage o incoming t2).reason.Nodup
        rw [hd1]
        exact h2r
      · show (deliveryStage o incoming t2).suggestion.Nodup
        rw [hd2]
        exact h2s

/-- C9: the final response returned to the caller never contains duplicate
reasons or suggestions — for the LangGraph agent because `_build_response`
deduplicates explicitly, and for the sequential pipeline because each stage
either wholesale-replaces the lists or appends messages from disjoint
families. -/
theorem final_responses_have_no_duplicates :
    (∀ st : AgentState,
      (agent_build_response st).reason.Nodup ∧
      (agent_build_response st).suggestions.Nodup) ∧
    (∀ (o : PipelineOracles) (address_text validation_id : String)
        (resp : EnhancedResponse) (steps : List StepTag),
      validate_address o address_text validation_id =
        Except.ok (resp, steps) →
      resp.reason.Nodup ∧ resp.suggestions.Nodup) := by
  constructor
  · intro st
    exact ⟨nodup_dedupKeepFirst st.reasons,
      nodup_dedupKeepFirst st.suggestions⟩
  · intro o address_text validation_id resp steps h
    unfold validate_address at h
    split at h
    · rcases hctry : o.countryResult with c | _ | copt
      · rw [hctry] at h
        simp only [Except.ok.injEq, Prod.mk.injEq] at h
        obtain ⟨h1, _⟩ := h
        subst h1
        constructor <;> simp [vp_build_response, initTempData]
      · rw [hctry] at h
        exact mainFlow_nodup o _ address_text validation_id _ _
          (by simp [initTempData]) (by simp [initTempData]) rfl resp steps h
      · rw [hctry] at h
        dsimp only at h
        simp only [Except.ok.injEq, Prod.mk.injEq] at h
        obtain ⟨h1, _⟩ := h
        subst h1
        constructor <;>
          · split <;> simp [vp_build_response, initTempData]
    · exact mainFlow_nodup o _ address_text validation_id _ _
        (by simp [initTempData]) (by simp [initTempData]) rfl resp steps h

/-- An oracle family for a minimal successful run (no external
collaborators available). -/
def demoOkOracles : PipelineOracles :=
  { gmapsAvailable := false, countryResult := CountryResult.ph,
    parsed := ⟨none, none, none, none, none⟩, smartTypoAvailable := false,
    typo := ⟨none, none, false, none⟩,
    searchProvince := fun _ => none, searchCity := fun _ _ => none,
    searchBarangay := fun _ _ => none, dbAvailable := false,
    getProvinceDetails := fun _ => none, getCityDetails := fun _ => none,
    philatlasAvailable := false, philatlasPostal := fun _ _ _ => none,
    geocodeResult := fun _ => GeoResult.invalid "Geocoding failed",
    getDeliveryHistory := fun _ => [] }

/-- Closed witness for C9 on a concrete pipeline run. -/
theorem final_responses_have_no_duplicates_witness :
    ∃ (resp : EnhancedResponse) (steps : List StepTag),
      validate_address demoOkOracles "addr" "vid" =
        Except.ok (resp, steps) ∧
      resp.reason.Nodup ∧ resp.suggestions.Nodup := by
  refine ⟨vp_build_response "vid" "addr"
      { initTempData with country := "PH" }
      (verdict_of { initTempData with country := "PH" }),
    [StepTag.parseStep, StepTag.typoStep, StepTag.psgcApiStep,
      StepTag.scoreStep], ?_, ?_⟩
  · rfl
  · exact final_responses_have_no_duplicates.2 demoOkOracles "addr" "vid"
      _ _ rfl

end AddressValidator
